import Mathlib

/-!
Verification of the retrieval-and-ingestion pipeline of the rag-service
repository against its natural-language specification.

The Python sources are shallowly embedded: pure functions become Lean
functions, the relational store becomes an explicit `DB` state threaded
through the service functions, exceptions become `Except`/outcome values,
and external collaborators (embedding provider, rerank provider, the SQL
engine) become explicit parameters describing the outcome of each call.
Machine floats are modelled by rationals.
-/

namespace RagService

/-! ## Chunker (`app/services/chunker.py`) -/

/-- Values stored in a chunk metadata map (`Dict[str, Any]` in the source;
only numbers and strings occur in this pipeline). -/
inductive MetaVal where
  | nat (n : Nat)
  | str (s : String)
deriving DecidableEq, Repr

/-- A metadata dictionary, modelled as an insertion-ordered association
list, matching Python `dict` semantics. -/
abbrev MetaDict := List (String × MetaVal)

/-- Python dict assignment `d[k] = v` on an insertion-ordered dict: overwrite in place if the key
exists, else append. -/
def mdSet (k : String) (v : MetaVal) : MetaDict → MetaDict
  | [] => [(k, v)]
  | (k', v') :: rest => if k' = k then (k, v) :: rest else (k', v') :: mdSet k v rest

/-- Embedding of `Chunk` (`chunker.py`). -/
structure Chunk where
  chunk_index : Nat
  text : String
  metadata : MetaDict
deriving DecidableEq, Repr

/-- Helper for `simpleTokenize`: scan the characters, accumulating the
current token (reversed); whitespace ends the current token, and empty
tokens are dropped. -/
def splitWhitespaceAux : List Char → List Char → List String
  | [], [] => []
  | [], cur => [String.mk cur.reverse]
  | c :: rest, cur =>
    if c.isWhitespace then
      if cur = [] then splitWhitespaceAux rest []
      else String.mk cur.reverse :: splitWhitespaceAux rest []
    else splitWhitespaceAux rest (c :: cur)

/-- Embedding of `_simple_tokenize`: split on runs of whitespace, empty
tokens dropped (Python `str.split()`). -/
def simpleTokenize (text : String) : List String :=
  splitWhitespaceAux text.toList []

/-- Embedding of `_simple_detokenize`: join with single spaces
(Python `" ".join`). -/
def simpleDetokenize : List String → String
  | [] => ""
  | [t] => t
  | t :: rest => t ++ " " ++ simpleDetokenize rest

/-- Chunk metadata as built in the loop body of `split_text_into_chunks`:
a copy of the base metadata updated with `chunk_index`, `token_start`,
`token_end` (computed keys overwrite base keys). -/
def chunkMetadata (base : MetaDict) (index start stop : Nat) : MetaDict :=
  mdSet "token_end" (.nat stop)
    (mdSet "token_start" (.nat start)
      (mdSet "chunk_index" (.nat index) base))

/-- The chunk produced for the window `[start, stop)` of `tokens`. -/
def mkChunk (tokens : List String) (base : MetaDict) (index start stop : Nat) : Chunk :=
  { chunk_index := index
    text := simpleDetokenize ((tokens.drop start).take (stop - start))
    metadata := chunkMetadata base index start stop }

/-- The `while start < len(tokens)` loop of `split_text_into_chunks`,
with explicit fuel; `none` means the fuel ran out before the loop
finished. -/
def chunkLoop (tokens : List String) (chunk_size overlap : Nat) (base : MetaDict) :
    Nat → Nat → Nat → Option (List Chunk)
  | 0, _, _ => none
  | fuel + 1, start, index =>
    if start < tokens.length then
      let stop := min (start + chunk_size) tokens.length
      let chunk := mkChunk tokens base index start stop
      if stop = tokens.length then
        some [chunk]
      else
        (chunkLoop tokens chunk_size overlap base fuel (stop - overlap) (index + 1)).map
          (chunk :: ·)
    else
      some []

/-- Embedding of `split_text_into_chunks` (default tokenizer and
detokenizer). Parameter validation precedes the loop exactly as in the
source; the loop runs with fuel `tokens.length + 1`, shown sufficient in
the termination theorem. -/
def split_text_into_chunks (text : String) (chunk_size overlap : Int)
    (base_metadata : MetaDict := []) : Except String (List Chunk) :=
  if chunk_size ≤ 0 then
    .error "chunk_size must be greater than 0"
  else if overlap < 0 ∨ overlap ≥ chunk_size then
    .error "overlap must be in [0, chunk_size)"
  else
    let tokens := simpleTokenize text
    if tokens = [] then
      .ok []
    else
      .ok ((chunkLoop tokens chunk_size.toNat overlap.toNat base_metadata
        (tokens.length + 1) 0 0).getD [])

/-! ### Sliding-window reference definition (spec §4.1)

The spec describes the chunker by windows `[start, start + chunk_size)`
with `next start = end - overlap`; since every non-final window is full,
the i-th window starts at `i * (chunk_size - overlap)`, and iteration
stops at the first window whose end reaches the token count. -/

/-- Number of windows the spec's iteration produces over `len` tokens:
the least `n > 0` with `(n-1)*(chunk_size-overlap) + chunk_size ≥ len`,
and `0` when there are no tokens. -/
def numChunksSpec (len chunk_size overlap : Nat) : Nat :=
  if len = 0 then 0
  else (len - chunk_size + (chunk_size - overlap - 1)) / (chunk_size - overlap) + 1

/-- Sliding-window reference definition of the chunker, following the
spec's words: window `i` covers tokens
`[i*(chunk_size-overlap), min (i*(chunk_size-overlap) + chunk_size) len)`,
indices assigned sequentially from 0, empty input giving no chunks. -/
def chunksSpec (text : String) (chunk_size overlap : Nat) (base : MetaDict) : List Chunk :=
  let tokens := simpleTokenize text
  (List.range (numChunksSpec tokens.length chunk_size overlap)).map fun i =>
    let start := i * (chunk_size - overlap)
    mkChunk tokens base i start (min (start + chunk_size) tokens.length)

/-! ## Retriever (`app/services/retriever.py`)

This module belongs to the hybrid (collection-scoped) search surface; its
`Document` model (`collection`/`content`/`doc_metadata` columns) is
distinct from the knowledge-base document model below and is embedded as
`RDoc`. The SQL queries (`vector_search`, `keyword_search`) run on the
external store; their row lists enter the functions below as inputs. -/

/-- A row of the hybrid-search `documents` table, as consumed by
`_merge_results` (fields `id`, `source_id`, `content`, `doc_metadata`). -/
structure RDoc where
  id : Int
  source_id : Option Int
  content : String
  doc_metadata : MetaDict
deriving DecidableEq, Repr

/-- Python `round(q, 4)`: round to 4 decimal places, ties to even. -/
def round4 (q : ℚ) : ℚ :=
  let scaled := q * 10000
  let f : ℤ := ⌊scaled⌋
  let frac : ℚ := scaled - f
  let n : ℤ :=
    if frac < 1/2 then f
    else if 1/2 < frac then f + 1
    else if f % 2 = 0 then f else f + 1
  (n : ℚ) / 10000

/-- Embedding of `_distance_to_similarity`: `round(1 - distance / 2, 4)`. -/
def distance_to_similarity (distance : ℚ) : ℚ :=
  round4 (1 - distance / 2)

/-- A result dict produced by `_merge_results` (and possibly extended by
`rerank` with a `rerank_score` key, modelled as an optional field). -/
structure SearchResultEntry where
  id : Int
  source_id : Option Int
  content : String
  metadata : MetaDict
  similarity : ℚ
  rerank_score : Option ℚ := none
deriving DecidableEq, Repr

/-- The `combined` dict of `_merge_results`, keyed by document id:
an insertion-ordered association list, as in Python. -/
abbrev Combined := List (Int × RDoc × ℚ)

/-- Dict entry `combined[doc.id] = ...` (vector loop): overwrite in place or
append. -/
def combinedSet (docId : Int) (v : RDoc × ℚ) : Combined → Combined
  | [] => [(docId, v)]
  | (k, w) :: rest =>
    if k = docId then (docId, v) :: rest else (k, w) :: combinedSet docId v rest

/-- The keyword-loop update of `_merge_results`: take the max similarity
for a present id, append otherwise. -/
def combinedMax (doc : RDoc) (sim : ℚ) : Combined → Combined
  | [] => [(doc.id, (doc, sim))]
  | (k, w) :: rest =>
    if k = doc.id then (k, (w.1, max w.2 sim)) :: rest
    else (k, w) :: combinedMax doc sim rest

/-- The first loop of `_merge_results`: enter every vector row with
similarity `round(1 - distance/2, 4)`. -/
def insertVectorResults : List (RDoc × ℚ) → Combined → Combined
  | [], acc => acc
  | (doc, distance) :: rest, acc =>
    insertVectorResults rest (combinedSet doc.id (doc, distance_to_similarity distance) acc)

/-- The second loop of `_merge_results`: enter every keyword row with
similarity `round(score, 4)`, merging by max. -/
def insertKeywordResults : List (RDoc × ℚ) → Combined → Combined
  | [], acc => acc
  | (doc, score) :: rest, acc =>
    insertKeywordResults rest (combinedMax doc (round4 score) acc)

/-- The result dict built from a combined entry. -/
def toEntry (d : RDoc) (s : ℚ) : SearchResultEntry :=
  { id := d.id, source_id := d.source_id, content := d.content
    metadata := d.doc_metadata, similarity := s }

/-- Stable descending insertion (Python `list.sort` with `reverse=True`
is stable: equal similarities keep their original relative order). -/
def insertDesc (r : SearchResultEntry) : List SearchResultEntry → List SearchResultEntry
  | [] => [r]
  | y :: ys => if r.similarity < y.similarity then y :: insertDesc r ys else r :: y :: ys

/-- Stable sort by similarity descending. -/
def sortBySimilarityDesc : List SearchResultEntry → List SearchResultEntry
  | [] => []
  | x :: xs => insertDesc x (sortBySimilarityDesc xs)

/-- Embedding of `_merge_results`. -/
def mergeResults (vector_results keyword_results : List (RDoc × ℚ)) : List SearchResultEntry :=
  let combined := insertKeywordResults keyword_results (insertVectorResults vector_results [])
  sortBySimilarityDesc (combined.map fun p => toEntry p.2.1 p.2.2)

/-- Outcome of the external rerank provider call made by `rerank`
(`httpx.post` to the provider): either the provider is not configured,
or the HTTP call / response handling raised, or it returned a list of
`{index, relevance_score}` items. -/
inductive RerankCall where
  | unconfigured
  | callFailed
  | ok (results : List (Nat × ℚ))
deriving DecidableEq, Repr

/-- The loop over `result["results"]` in `rerank`: copy
`documents[idx]` and attach the relevance score; an out-of-range index
raises (`none`), which the caller's `except` turns into the fallback. -/
def applyRerankScores (documents : List SearchResultEntry) :
    List (Nat × ℚ) → Option (List SearchResultEntry)
  | [] => some []
  | (idx, score) :: rest =>
    match documents.get? idx with
    | none => none
    | some doc =>
      (applyRerankScores documents rest).map
        (fun tail => { doc with rerank_score := some score } :: tail)

/-- Embedding of `rerank` (`retriever.py`). The query string only feeds
the provider request, which `provider` abstracts. -/
def rerank (provider : RerankCall) (documents : List SearchResultEntry)
    (top_k : Nat) : List SearchResultEntry :=
  if documents = [] then []
  else
    match provider with
    | .unconfigured => documents.take top_k
    | .callFailed => documents.take top_k
    | .ok results =>
      match applyRerankScores documents results with
      | none => documents.take top_k
      | some reranked => if reranked = [] then documents.take top_k else reranked

/-- Embedding of `hybrid_search`. The store-side `vector_search` and
`keyword_search` row lists are inputs; `keyword_enabled` is the
`KEYWORD_SEARCH_ENABLED` setting. -/
def hybrid_search (query collection : String)
    (vector_results keyword_results : List (RDoc × ℚ)) (keyword_enabled : Bool)
    (provider : RerankCall) (rerank_top_k : Nat) (use_rerank : Bool) :
    List SearchResultEntry :=
  if query = "" ∨ collection = "" then []
  else
    let kres := if keyword_enabled then keyword_results else []
    let documents := mergeResults vector_results kres
    if documents = [] then []
    else if use_rerank ∧ documents.length > rerank_top_k ∧ 0 < rerank_top_k then
      rerank provider documents rerank_top_k
    else
      documents.take rerank_top_k

/-- Modelled from the spec: the rerank stage of the knowledge-base-scoped
retrieval path (`search_chunks`, imported by `app/api/chat.py` but absent
from the service sources). Per spec §4.3 it calls the injected rerank
function and fails hard: a provider error propagates unchanged, and a
score count different from the candidate count fails with an INTERNAL
count-mismatch error. -/
def kbScopedRerankStage (candidates : List SearchResultEntry)
    (rerankCall : Except String (List ℚ)) : Except String (List (SearchResultEntry × ℚ)) :=
  match rerankCall with
  | .error e => .error e
  | .ok scores =>
    if scores.length ≠ candidates.length then .error "RERANK_COUNT_MISMATCH"
    else .ok (candidates.zip scores)

/-! ## Data model (`app/db/models.py`)

The relational store is embedded as an explicit `DB` value holding the
committed rows of the four tables. Timestamps are server-maintained
metadata with no behavioural role and are omitted. -/

/-- Embedding of `KnowledgeBaseStatus`. -/
inductive KnowledgeBaseStatus where
  | enabled
  | disabled
  | deleted
deriving DecidableEq, Repr

/-- Embedding of `DocumentStatus`. -/
inductive DocumentStatus where
  | processing
  | completed
  | failed
  | deleted
deriving DecidableEq, Repr

/-- Embedding of `CleanupTaskStatus`. -/
inductive CleanupTaskStatus where
  | pending
  | running
  | completed
  | failed
deriving DecidableEq, Repr

/-- A `knowledge_bases` row. -/
structure KnowledgeBaseRow where
  id : Nat
  name : String
  description : Option String
  status : KnowledgeBaseStatus
deriving DecidableEq, Repr

/-- A `documents` row. -/
structure DocumentRow where
  id : Nat
  knowledge_base_id : Nat
  filename : String
  status : DocumentStatus
  error_message : Option String
  chunk_count : Nat
deriving DecidableEq, Repr

/-- A `document_chunks` row; the embedding vector is a list of rationals
(the model of a float vector). -/
structure ChunkRow where
  knowledge_base_id : Nat
  document_id : Nat
  chunk_index : Nat
  chunk_text : String
  metadata_json : MetaDict
  embedding : List ℚ
deriving DecidableEq, Repr

/-- The `progress` JSON of a cleanup task:
`{processed, total, percentage}`. -/
structure Progress where
  processed : Nat
  total : Option Nat
  percentage : Option ℚ
deriving DecidableEq, Repr

/-- A `cleanup_tasks` row. -/
structure CleanupTaskRow where
  id : Nat
  knowledge_base_id : Nat
  status : CleanupTaskStatus
  progress : Option Progress
  error_message : Option String
deriving DecidableEq, Repr

/-- The committed state of the store. -/
structure DB where
  knowledge_bases : List KnowledgeBaseRow
  documents : List DocumentRow
  chunks : List ChunkRow
  cleanup_tasks : List CleanupTaskRow
deriving DecidableEq, Repr

/-- Primary-key lookup `db.get(KnowledgeBase, id)`. -/
def DB.getKnowledgeBase (db : DB) (id : Nat) : Option KnowledgeBaseRow :=
  db.knowledge_bases.find? fun kb => kb.id == id

/-- Primary-key lookup `db.get(Document, id)`. -/
def DB.getDocument (db : DB) (id : Nat) : Option DocumentRow :=
  db.documents.find? fun d => d.id == id

/-- Primary-key lookup `db.get(CleanupTask, id)`. -/
def DB.getCleanupTask (db : DB) (id : Nat) : Option CleanupTaskRow :=
  db.cleanup_tasks.find? fun t => t.id == id

/-- Committing a mutated knowledge-base row: replace by primary key. -/
def DB.setKnowledgeBase (db : DB) (kb : KnowledgeBaseRow) : DB :=
  { db with knowledge_bases := db.knowledge_bases.map fun x => if x.id = kb.id then kb else x }

/-- Committing a mutated document row: replace by primary key. -/
def DB.setDocument (db : DB) (doc : DocumentRow) : DB :=
  { db with documents := db.documents.map fun x => if x.id = doc.id then doc else x }

/-- Committing a mutated cleanup-task row: replace by primary key. -/
def DB.setCleanupTask (db : DB) (t : CleanupTaskRow) : DB :=
  { db with cleanup_tasks := db.cleanup_tasks.map fun x => if x.id = t.id then t else x }

/-- Statement `DELETE FROM document_chunks WHERE document_id = :id`. -/
def DB.deleteChunksOfDocument (db : DB) (document_id : Nat) : DB :=
  { db with chunks := db.chunks.filter fun c => ¬ c.document_id = document_id }

/-- Statement `DELETE FROM document_chunks WHERE knowledge_base_id = :id`. -/
def DB.deleteChunksOfKB (db : DB) (kb_id : Nat) : DB :=
  { db with chunks := db.chunks.filter fun c => ¬ c.knowledge_base_id = kb_id }

/-- Statement `DELETE FROM documents WHERE knowledge_base_id = :id`. -/
def DB.deleteDocumentsOfKB (db : DB) (kb_id : Nat) : DB :=
  { db with documents := db.documents.filter fun d => ¬ d.knowledge_base_id = kb_id }

/-! ## Embedding persistence (`app/services/embedding.py`) -/

/-- Embedding of `l2_normalize`. `math.sqrt` on a rational is modelled by
`Rat.sqrt`; the claims below do not depend on the numeric value, only on
the shape of the statement. -/
def l2_normalize (vector : List ℚ) : List ℚ :=
  let norm := Rat.sqrt (vector.foldl (fun acc v => acc + v * v) 0)
  if norm = 0 then vector else vector.map (· / norm)

/-- The validation/normalization loop of `persist_embeddings`: check each
embedding's dimension in order, normalizing as it goes; the first
mismatch raises `ValueError`. -/
def normalizeEmbeddings (embedding_dim : Nat) : List (List ℚ) → Except String (List (List ℚ))
  | [] => .ok []
  | e :: rest =>
    if e.length ≠ embedding_dim then .error "embedding dimension mismatch"
    else (normalizeEmbeddings embedding_dim rest).map (l2_normalize e :: ·)

/-- The `DocumentChunk` rows inserted by `persist_embeddings`
(`zip(chunks, normalized)`). -/
def newChunkRows (document : DocumentRow) (chunks : List Chunk)
    (normalized : List (List ℚ)) : List ChunkRow :=
  (chunks.zip normalized).map fun p =>
    { knowledge_base_id := document.knowledge_base_id
      document_id := document.id
      chunk_index := p.1.chunk_index
      chunk_text := p.1.text
      metadata_json := p.1.metadata
      embedding := p.2 }

/-- Outcome of `persist_embeddings`: the returned document, or one of the
raised `AppError`s (404 `DOCUMENT_NOT_FOUND`, 410 `DOCUMENT_DELETED`,
500 `INTERNAL_ERROR` after the failure write). -/
inductive PersistResult where
  | ok (doc : DocumentRow)
  | notFound
  | gone
  | internalError
deriving DecidableEq, Repr

/-- Embedding of `persist_embeddings`. `embedResult` is the outcome of
`embed_fn(texts)` (value returned, or message of the exception raised);
`txError` is `none` when the store accepts the transactional writes and
`some msg` when some step of the transaction raises with message `msg`,
in which case the transaction has no effect. The metrics counter has no
modelled state. -/
def persist_embeddings (db : DB) (document_id : Nat) (chunks : List Chunk)
    (embedResult : Except String (List (List ℚ))) (embedding_dim : Nat)
    (txError : Option String) : DB × PersistResult :=
  match db.getDocument document_id with
  | none => (db, .notFound)
  | some document =>
    if document.status = DocumentStatus.deleted then (db, .gone)
    else
      let attempt : Except String (DB × DocumentRow) := do
        let embeddings ← embedResult
        if embeddings.length ≠ chunks.length then
          throw "embedding count does not match chunk count"
        let normalized ← normalizeEmbeddings embedding_dim embeddings
        match txError with
        | some msg => throw msg
        | none =>
          let updated := { document with
            chunk_count := chunks.length
            status := DocumentStatus.completed
            error_message := none }
          let db1 := db.deleteChunksOfDocument document_id
          let db2 := { db1 with chunks := db1.chunks ++ newChunkRows document chunks normalized }
          pure (db2.setDocument updated, updated)
      match attempt with
      | .ok (db', updated) => (db', .ok updated)
      | .error msg =>
        match db.getDocument document_id with
        | some doc2 =>
          (db.setDocument { doc2 with status := DocumentStatus.failed, error_message := some msg },
            .internalError)
        | none => (db, .internalError)

/-! ## Document service (`app/services/document.py`) -/

/-- The `AppError`s raised by the document and knowledge-base services,
identified by their error codes. -/
inductive SvcError where
  | knowledgeBaseNotFound
  | knowledgeBaseUnavailable
  | knowledgeBaseNameConflict
  | knowledgeBaseDeleted
  | unsupportedMediaType
  | payloadTooLarge
  | documentNotFound
  | documentDeleted
deriving DecidableEq, Repr

/-- Embedding of `SUPPORTED_EXTENSIONS`. -/
def SUPPORTED_EXTENSIONS : List String :=
  [".pdf", ".docx", ".xlsx", ".pptx", ".txt", ".md", ".markdown", ".html",
   ".htm", ".png", ".jpg", ".jpeg"]

/-- Embedding of `SUPPORTED_CONTENT_TYPES`. -/
def SUPPORTED_CONTENT_TYPES : List String :=
  ["application/pdf",
   "application/vnd.openxmlformats-officedocument.wordprocessingml.document",
   "application/vnd.openxmlformats-officedocument.spreadsheetml.sheet",
   "application/vnd.openxmlformats-officedocument.presentationml.presentation",
   "text/plain", "text/markdown", "text/html", "image/png", "image/jpeg"]

/-- An upload, as far as the service reads it: `filename`,
`content_type`, and the size determined by `_get_upload_size`. -/
structure UploadFile where
  filename : Option String
  content_type : Option String
  size : Nat
deriving DecidableEq, Repr

/-- Python `x or default` for optional strings (`None` and `""` are both
falsy). -/
def orDefault (x : Option String) (default : String) : String :=
  match x with
  | none => default
  | some "" => default
  | some s => s

/-- Model of `os.path.splitext(filename)[1]`: the suffix from the final dot, with
no extension when every character before that dot is a dot. -/
def splitextExt (filename : String) : String :=
  let cs := filename.toList
  match ((List.range cs.length).filter fun i => cs.get? i = some '.').getLast? with
  | none => ""
  | some i => if (cs.take i).all (· = '.') then "" else String.mk (cs.drop i)

/-- Python `str.lower`, character by character. -/
def lowerStr (s : String) : String :=
  String.mk (s.toList.map Char.toLower)

/-- Embedding of `_ensure_kb_available`. -/
def ensure_kb_available (db : DB) (kb_id : Nat) : Except SvcError KnowledgeBaseRow :=
  match db.getKnowledgeBase kb_id with
  | none => .error .knowledgeBaseNotFound
  | some kb =>
    if kb.status = KnowledgeBaseStatus.disabled ∨ kb.status = KnowledgeBaseStatus.deleted then
      .error .knowledgeBaseUnavailable
    else
      .ok kb

/-- Embedding of `_validate_upload_file`. -/
def validate_upload_file (f : UploadFile) (max_size : Nat) : Except SvcError Unit :=
  let filename := orDefault f.filename ""
  let ext := lowerStr (splitextExt filename)
  let content_type := orDefault f.content_type ""
  if ¬ ext ∈ SUPPORTED_EXTENSIONS ∧ ¬ content_type ∈ SUPPORTED_CONTENT_TYPES then
    .error .unsupportedMediaType
  else if f.size > max_size then
    .error .payloadTooLarge
  else
    .ok ()

/-- Embedding of `create_document`; `newId` is the primary key the store
assigns to the inserted row. -/
def create_document (db : DB) (kb_id : Nat) (f : UploadFile) (max_size : Nat)
    (newId : Nat) : Except SvcError (DB × DocumentRow) := do
  let _ ← ensure_kb_available db kb_id
  let _ ← validate_upload_file f max_size
  let document : DocumentRow :=
    { id := newId
      knowledge_base_id := kb_id
      filename := orDefault f.filename "unknown"
      status := DocumentStatus.processing
      error_message := none
      chunk_count := 0 }
  .ok ({ db with documents := db.documents ++ [document] }, document)

/-- Embedding of `delete_document`: mark the document DELETED and delete
its chunk rows in one commit. -/
def delete_document (db : DB) (document_id : Nat) : Except SvcError DB :=
  match db.getDocument document_id with
  | none => .error .documentNotFound
  | some document =>
    if document.status = DocumentStatus.deleted then .error .documentDeleted
    else
      .ok ((db.setDocument { document with status := DocumentStatus.deleted }).deleteChunksOfDocument
        document_id)

/-! ## Knowledge-base service (`app/services/knowledge_base.py`) -/

/-- Embedding of the `KnowledgeBaseUpdate` payload (pydantic: every field optional). -/
structure KBUpdatePayload where
  name : Option String
  description : Option String
  status : Option KnowledgeBaseStatus
deriving DecidableEq, Repr

/-- Embedding of `update_knowledge_base`. The commit is modelled as
accepted (the `IntegrityError` re-check duplicates the explicit name
conflict check). -/
def update_knowledge_base (db : DB) (kb_id : Nat) (payload : KBUpdatePayload) :
    Except SvcError (DB × KnowledgeBaseRow) :=
  match db.getKnowledgeBase kb_id with
  | none => .error .knowledgeBaseNotFound
  | some kb =>
    if kb.status = KnowledgeBaseStatus.deleted then .error .knowledgeBaseDeleted
    else do
      let kb1 ←
        match payload.name with
        | some n =>
          if n ≠ "" ∧ n ≠ kb.name then
            if (db.knowledge_bases.filter fun x => x.name == n ∧ ¬ x.id = kb_id) ≠ [] then
              Except.error SvcError.knowledgeBaseNameConflict
            else
              Except.ok { kb with name := n }
          else
            Except.ok kb
        | none => Except.ok kb
      let kb2 : KnowledgeBaseRow :=
        match payload.description with
        | some d => { kb1 with description := some d }
        | none => kb1
      let kb3 ←
        match payload.status with
        | some s =>
          if s = KnowledgeBaseStatus.deleted then Except.error SvcError.knowledgeBaseDeleted
          else Except.ok { kb2 with status := s }
        | none => Except.ok kb2
      .ok (db.setKnowledgeBase kb3, kb3)

/-- Embedding of `delete_knowledge_base`: mark the knowledge base DELETED
and create the PENDING cleanup task in one commit; `newTaskId` is the
primary key the store assigns to the task row. -/
def delete_knowledge_base (db : DB) (kb_id : Nat) (newTaskId : Nat) :
    Except SvcError (DB × CleanupTaskRow) :=
  match db.getKnowledgeBase kb_id with
  | none => .error .knowledgeBaseNotFound
  | some kb =>
    if kb.status = KnowledgeBaseStatus.deleted then .error .knowledgeBaseDeleted
    else
      let task : CleanupTaskRow :=
        { id := newTaskId
          knowledge_base_id := kb.id
          status := CleanupTaskStatus.pending
          progress := some { processed := 0, total := none, percentage := none }
          error_message := none }
      let db1 := db.setKnowledgeBase { kb with status := KnowledgeBaseStatus.deleted }
      .ok ({ db1 with cleanup_tasks := db1.cleanup_tasks ++ [task] }, task)

/-! ## Cleanup-task service (`app/services/cleanup_task.py`) -/

/-- Outcome of `run_cleanup_task`: the returned task row, or one of the
raised errors — 404 `CLEANUP_TASK_NOT_FOUND`, 409
`CLEANUP_TASK_NOT_RETRYABLE`, or an exception message that propagates to
the caller. -/
inductive RunOutcome where
  | ok (task : CleanupTaskRow)
  | notFound
  | conflict
  | raised (msg : String)
deriving DecidableEq, Repr

/-- Store-failure oracle for one run of `run_cleanup_task`: for each
store operation the run performs, `none` when it succeeds and `some msg`
when it raises with message `msg`. `countError` covers the two count
queries, which the source executes before its `try` block. -/
structure CleanupFaults where
  countError : Option String := none
  commitProgressError : Option String := none
  deleteChunksError : Option String := none
  deleteDocumentsError : Option String := none
  finalCommitError : Option String := none
deriving DecidableEq, Repr

/-- Embedding of `run_cleanup_task`. Uncommitted session mutations are
lost when an exception propagates (`countError`); inside the `try`, a
failure rolls back to the last committed state, after which the `except`
block marks the task FAILED and commits. -/
def run_cleanup_task (db : DB) (task_id : Nat) (faults : CleanupFaults) : DB × RunOutcome :=
  match db.getCleanupTask task_id with
  | none => (db, .notFound)
  | some task =>
    if task.status = CleanupTaskStatus.completed then (db, .ok task)
    else if ¬ (task.status = CleanupTaskStatus.pending ∨ task.status = CleanupTaskStatus.failed) then
      (db, .conflict)
    else
      match faults.countError with
      | some msg => (db, .raised msg)
      | none =>
        let chunk_count := (db.chunks.filter fun c => c.knowledge_base_id == task.knowledge_base_id).length
        let doc_count := (db.documents.filter fun d => d.knowledge_base_id == task.knowledge_base_id).length
        let total := chunk_count + doc_count
        let runningTask := { task with
          status := CleanupTaskStatus.running
          error_message := none
          progress := some { processed := 0, total := some total,
                             percentage := if total ≠ 0 then some 0 else none } }
        match faults.commitProgressError with
        | some msg =>
          -- the intermediate commit itself raised: nothing committed yet,
          -- the except block re-reads the original row, marks it FAILED,
          -- commits
          let failed := { task with status := CleanupTaskStatus.failed, error_message := some msg }
          (db.setCleanupTask failed, .ok failed)
        | none =>
          let db1 := db.setCleanupTask runningTask
          let failWith : String → DB × RunOutcome := fun msg =>
            let failed := { runningTask with
              status := CleanupTaskStatus.failed, error_message := some msg }
            (db1.setCleanupTask failed, .ok failed)
          match faults.deleteChunksError with
          | some msg => failWith msg
          | none =>
            match faults.deleteDocumentsError with
            | some msg => failWith msg
            | none =>
              match faults.finalCommitError with
              | some msg => failWith msg
              | none =>
                let completedTask := { runningTask with
                  status := CleanupTaskStatus.completed
                  progress := some { processed := total, total := some total,
                                     percentage := some 1 } }
                let db2 := (db1.deleteChunksOfKB task.knowledge_base_id).deleteDocumentsOfKB
                  task.knowledge_base_id
                (db2.setCleanupTask completedTask, .ok completedTask)

/-- Embedding of `retry_cleanup_task`. -/
def retry_cleanup_task (db : DB) (task_id : Nat) : DB × RunOutcome :=
  match db.getCleanupTask task_id with
  | none => (db, .notFound)
  | some task =>
    if ¬ task.status = CleanupTaskStatus.failed then (db, .conflict)
    else
      let reset := { task with
        status := CleanupTaskStatus.pending
        error_message := none
        progress := some { processed := 0, total := none, percentage := none } }
      (db.setCleanupTask reset, .ok reset)

/-- The spec's `chunk_count` invariant (§3): a document's `chunk_count`
field equals the number of chunk rows currently belonging to it. -/
def chunkCountOk (db : DB) (document_id : Nat) : Bool :=
  match db.getDocument document_id with
  | none => true
  | some doc => doc.chunk_count == (db.chunks.filter fun c => c.document_id = document_id).length

/-- Lookup in the `combined` dict by document id. -/
def dlookup (i : Int) : Combined → Option (RDoc × ℚ)
  | [] => none
  | (k, v) :: rest => if k = i then some v else dlookup i rest

/-- The output order of `_merge_results`: similarity descending. -/
def SortedDesc (l : List SearchResultEntry) : Prop :=
  l.Pairwise fun a b => b.similarity ≤ a.similarity

/-- Scenario C's document A. -/
def docA : RDoc := { id := 1, source_id := none, content := "A", doc_metadata := [] }

/-- Scenario C's document B. -/
def docB : RDoc := { id := 2, source_id := none, content := "B", doc_metadata := [] }

/-- The total the executor computes for a knowledge base: its chunk count
plus its document count. -/
def cleanupTotal (db : DB) (kb_id : Nat) : Nat :=
  (db.chunks.filter fun c => c.knowledge_base_id == kb_id).length +
    (db.documents.filter fun d => d.knowledge_base_id == kb_id).length

/-! ## Theorems -/

/-! ### Chunker lemmas -/

theorem chunkLoop_isSome (chunk_size overlap : Nat) (hcs : 0 < chunk_size)
    (hov : overlap < chunk_size) (base : MetaDict) (tokens : List String) :
    ∀ fuel start index, tokens.length - start < fuel →
      (chunkLoop tokens chunk_size overlap base fuel start index).isSome := by
  intro fuel
  induction fuel with
  | zero => intro start index h; omega
  | succ f ih =>
    intro start index h
    simp only [chunkLoop]
    by_cases hlt : start < tokens.length
    · simp only [hlt, if_true]
      by_cases hstop : min (start + chunk_size) tokens.length = tokens.length
      · simp [hstop]
      · rw [if_neg hstop]
        have hrec := ih ((start + chunk_size) ⊓ tokens.length - overlap) (index + 1) (by omega)
        rcases Option.isSome_iff_exists.mp hrec with ⟨v, hv⟩
        simp [hv]
    · simp [hlt]

theorem chunkLoop_eq_spec (chunk_size overlap : Nat) (hcs : 0 < chunk_size)
    (hov : overlap < chunk_size) (base : MetaDict) (tokens : List String) :
    ∀ fuel i, (i = 0 ∨ i * (chunk_size - overlap) + overlap < tokens.length) →
      i * (chunk_size - overlap) < tokens.length →
      tokens.length - i * (chunk_size - overlap) < fuel →
      chunkLoop tokens chunk_size overlap base fuel (i * (chunk_size - overlap)) i =
        some ((List.range' i (numChunksSpec tokens.length chunk_size overlap - i)).map fun j =>
          mkChunk tokens base j (j * (chunk_size - overlap))
            (min (j * (chunk_size - overlap) + chunk_size) tokens.length)) := by
  intro fuel
  induction fuel with
  | zero => intro i _ _ h; omega
  | succ f ih =>
    intro i hinv hlt hfuel
    have hsm : (i + 1) * (chunk_size - overlap) = i * (chunk_size - overlap) + (chunk_size - overlap) :=
      Nat.succ_mul i (chunk_size - overlap)
    have hN : numChunksSpec tokens.length chunk_size overlap =
        (tokens.length - chunk_size + (chunk_size - overlap - 1)) / (chunk_size - overlap) + 1 := by
      rw [numChunksSpec]
      rw [if_neg (by omega)]
    simp only [chunkLoop]
    rw [if_pos hlt]
    by_cases hstop : min (i * (chunk_size - overlap) + chunk_size) tokens.length = tokens.length
    · -- final window
      have h2 : tokens.length ≤ i * (chunk_size - overlap) + chunk_size := min_eq_right_iff.mp hstop
      have hdiv : (tokens.length - chunk_size + (chunk_size - overlap - 1)) / (chunk_size - overlap) = i := by
        apply Nat.div_eq_of_lt_le
        · rcases hinv with h0 | h0
          · subst h0; simp
          · omega
        · omega
      rw [if_pos hstop]
      have hNi : numChunksSpec tokens.length chunk_size overlap - i = 1 := by omega
      rw [hNi]
      simp [List.range'_succ, hstop]
    · -- full window, recurse
      rw [if_neg hstop]
      have hfull : i * (chunk_size - overlap) + chunk_size < tokens.length := by
        by_contra hcon
        exact hstop (min_eq_right (by omega))
      have hmin : min (i * (chunk_size - overlap) + chunk_size) tokens.length =
          i * (chunk_size - overlap) + chunk_size :=
        min_eq_left (le_of_lt hfull)
      have hnext : i * (chunk_size - overlap) + chunk_size - overlap = (i + 1) * (chunk_size - overlap) := by
        omega
      rw [hmin, hnext]
      rw [ih (i + 1) (Or.inr (by omega)) (by omega) (by omega)]
      have hge : i + 1 < numChunksSpec tokens.length chunk_size overlap := by
        rw [hN]
        have hle : (i + 1) * (chunk_size - overlap) ≤
            tokens.length - chunk_size + (chunk_size - overlap - 1) := by omega
        have := (Nat.le_div_iff_mul_le (show 0 < chunk_size - overlap by omega)).mpr hle
        omega
      have hNi : numChunksSpec tokens.length chunk_size overlap - i =
          (numChunksSpec tokens.length chunk_size overlap - (i + 1)) + 1 := by omega
      rw [hNi, List.range'_succ]
      simp [hmin]

theorem split_eq_chunksSpec (text : String) (chunk_size overlap : Nat) (hcs : 0 < chunk_size)
    (hov : overlap < chunk_size) (base : MetaDict) :
    split_text_into_chunks text chunk_size overlap base = .ok (chunksSpec text chunk_size overlap base) := by
  rw [split_text_into_chunks]
  rw [if_neg (by omega)]
  rw [if_neg (by push_neg; omega)]
  by_cases htok : simpleTokenize text = []
  · rw [if_pos htok]
    rw [chunksSpec, htok]
    simp [numChunksSpec]
  · rw [if_neg htok]
    have hlen : 0 < (simpleTokenize text).length := List.length_pos.mpr htok
    have h0 : (0 : Nat) = 0 * (chunk_size - overlap) := by ring
    have := chunkLoop_eq_spec chunk_size overlap hcs hov base (simpleTokenize text)
      ((simpleTokenize text).length + 1) 0 (Or.inl rfl) (by omega) (by omega)
    simp only [Nat.zero_mul] at this
    have htn : (chunk_size : Int).toNat = chunk_size := by simp
    have hon : (overlap : Int).toNat = overlap := by simp
    rw [htn, hon, this]
    rw [chunksSpec]
    simp [List.range_eq_range']

theorem split_eq_chunksSpec_nat (text : String) (chunk_size overlap : Nat) (hcs : 0 < chunk_size)
    (hov : overlap < chunk_size) (base : MetaDict) :
    split_text_into_chunks text chunk_size overlap base =
      .ok (chunksSpec text chunk_size overlap base) :=
  split_eq_chunksSpec text chunk_size overlap hcs hov base

/-- C3: for every text, `chunk_size > 0` and `0 ≤ overlap < chunk_size`,
`split_text_into_chunks` equals the sliding-window reference definition
(whitespace tokenization, empty input giving an empty chunk list, windows
`[start, start+chunk_size)` with `next start = end - overlap` stopping
when `end` reaches the token count, indices sequential from 0, metadata
carrying `chunk_index`/`token_start`/`token_end`); in particular
`"a b c d e"` with `chunk_size=3, overlap=1` yields exactly `"a b c"` and
`"c d e"` with indices 0 and 1. -/
theorem C3_chunker_matches_sliding_window (text : String) (chunk_size overlap : Int)
    (hcs : 0 < chunk_size) (hov0 : 0 ≤ overlap) (hov : overlap < chunk_size)
    (base : MetaDict) :
    split_text_into_chunks text chunk_size overlap base =
      .ok (chunksSpec text chunk_size.toNat overlap.toNat base)
    ∧ split_text_into_chunks "a b c d e" 3 1 [] =
      .ok [{ chunk_index := 0, text := "a b c",
             metadata := [("chunk_index", .nat 0), ("token_start", .nat 0),
                          ("token_end", .nat 3)] },
           { chunk_index := 1, text := "c d e",
             metadata := [("chunk_index", .nat 1), ("token_start", .nat 2),
                          ("token_end", .nat 5)] }] := by
  constructor
  · have h := split_eq_chunksSpec_nat text chunk_size.toNat overlap.toNat
      (by omega) (by omega) base
    rwa [Int.toNat_of_nonneg hcs.le, Int.toNat_of_nonneg hov0] at h
  · rfl

theorem C3_witness :
    split_text_into_chunks "a b c" 2 1 [] = .ok (chunksSpec "a b c" 2 1 [])
    ∧ split_text_into_chunks "a b c d e" 3 1 [] =
      .ok [{ chunk_index := 0, text := "a b c",
             metadata := [("chunk_index", .nat 0), ("token_start", .nat 0),
                          ("token_end", .nat 3)] },
           { chunk_index := 1, text := "c d e",
             metadata := [("chunk_index", .nat 1), ("token_start", .nat 2),
                          ("token_end", .nat 5)] }] :=
  C3_chunker_matches_sliding_window "a b c" 2 1 (by decide) (by decide) (by decide) []

/-- C10: for every input and every `chunk_size > 0`, `0 ≤ overlap <
chunk_size`, the chunking loop terminates: `tokens.length - start`
strictly decreases, so fuel `tokens.length - start + 1` always suffices,
and `split_text_into_chunks` always returns a result. -/
theorem C10_chunker_terminates (chunk_size overlap : Nat) (hcs : 0 < chunk_size)
    (hov : overlap < chunk_size) (base : MetaDict) :
    (∀ (tokens : List String) (start index : Nat),
      (chunkLoop tokens chunk_size overlap base (tokens.length - start + 1) start index).isSome
        = true)
    ∧ ∀ text : String, ∃ out,
        split_text_into_chunks text chunk_size overlap base = .ok out := by
  constructor
  · intro tokens start index
    exact chunkLoop_isSome chunk_size overlap hcs hov base tokens
      (tokens.length - start + 1) start index (by omega)
  · intro text
    exact ⟨chunksSpec text chunk_size overlap base,
      split_eq_chunksSpec_nat text chunk_size overlap hcs hov base⟩

theorem C10_witness :
    (chunkLoop ["a", "b", "c"] 2 1 [] 4 0 0).isSome = true :=
  (C10_chunker_terminates 2 1 (by decide) (by decide) []).1 ["a", "b", "c"] 0 0

/-! ### Merge lemmas -/

theorem dlookup_combinedSet_self (i : Int) (v : RDoc × ℚ) (l : Combined) :
    dlookup i (combinedSet i v l) = some v := by
  induction l with
  | nil => simp [combinedSet, dlookup]
  | cons e rest ih =>
    obtain ⟨k, w⟩ := e
    by_cases hk : k = i
    · simp [combinedSet, hk, dlookup]
    · simp [combinedSet, hk, dlookup, ih]

theorem dlookup_combinedSet_ne (i j : Int) (v : RDoc × ℚ) (l : Combined) (h : j ≠ i) :
    dlookup j (combinedSet i v l) = dlookup j l := by
  induction l with
  | nil => simp [combinedSet, dlookup, Ne.symm h]
  | cons e rest ih =>
    obtain ⟨k, w⟩ := e
    by_cases hk : k = i
    · subst hk
      simp [combinedSet, dlookup, Ne.symm h]
    · by_cases hj : k = j
      · simp [combinedSet, hk, dlookup, hj, h, Ne.symm h]
      · simp [combinedSet, hk, dlookup, hj, ih]

theorem dlookup_combinedMax_none (doc : RDoc) (s : ℚ) (l : Combined)
    (h : dlookup doc.id l = none) :
    dlookup doc.id (combinedMax doc s l) = some (doc, s) := by
  induction l with
  | nil => simp [combinedMax, dlookup]
  | cons e rest ih =>
    obtain ⟨k, w⟩ := e
    by_cases hk : k = doc.id
    · simp [dlookup, hk] at h
    · simp only [dlookup, hk, if_false, if_neg hk] at h
      simp [combinedMax, hk, dlookup, ih h]

theorem dlookup_combinedMax_some (doc : RDoc) (s : ℚ) (l : Combined) (d : RDoc) (s' : ℚ)
    (h : dlookup doc.id l = some (d, s')) :
    dlookup doc.id (combinedMax doc s l) = some (d, max s' s) := by
  induction l with
  | nil => simp [dlookup] at h
  | cons e rest ih =>
    obtain ⟨k, w⟩ := e
    by_cases hk : k = doc.id
    · subst hk
      simp only [dlookup, if_pos rfl] at h
      obtain ⟨rfl, rfl⟩ : w.1 = d ∧ w.2 = s' := by
        cases h
        exact ⟨rfl, rfl⟩
      simp [combinedMax, dlookup]
    · simp only [dlookup, if_neg hk] at h
      simp [combinedMax, hk, dlookup, ih h]

theorem dlookup_combinedMax_ne (doc : RDoc) (s : ℚ) (j : Int) (l : Combined)
    (h : j ≠ doc.id) :
    dlookup j (combinedMax doc s l) = dlookup j l := by
  induction l with
  | nil => simp [combinedMax, dlookup, Ne.symm h]
  | cons e rest ih =>
    obtain ⟨k, w⟩ := e
    by_cases hk : k = doc.id
    · subst hk
      simp [combinedMax, dlookup, Ne.symm h]
    · by_cases hj : k = j
      · simp [combinedMax, hk, dlookup, hj, h, Ne.symm h]
      · simp [combinedMax, hk, dlookup, hj, ih]

theorem dlookup_insertVector_notin (v : List (RDoc × ℚ)) (j : Int) :
    ∀ acc, (∀ p ∈ v, p.1.id ≠ j) →
      dlookup j (insertVectorResults v acc) = dlookup j acc := by
  induction v with
  | nil => intro acc _; rfl
  | cons p rest ih =>
    intro acc hnot
    obtain ⟨doc, dist⟩ := p
    have hid : doc.id ≠ j := hnot (doc, dist) (by simp)
    rw [insertVectorResults]
    rw [ih _ (fun q hq => hnot q (by simp [hq]))]
    exact dlookup_combinedSet_ne doc.id j _ acc (Ne.symm hid)

theorem dlookup_insertVector_mem (v : List (RDoc × ℚ)) (doc : RDoc) (dist : ℚ) :
    ∀ acc, (doc, dist) ∈ v → (v.map fun p => p.1.id).Nodup →
      dlookup doc.id (insertVectorResults v acc) = some (doc, distance_to_similarity dist) := by
  induction v with
  | nil => intro acc h _; simp at h
  | cons p rest ih =>
    intro acc hmem hnodup
    rw [List.map_cons, List.nodup_cons] at hnodup
    rcases List.mem_cons.mp hmem with heq | htail
    · obtain ⟨rfl, rfl⟩ : p.1 = doc ∧ p.2 = dist := by
        cases heq
        exact ⟨rfl, rfl⟩
      rw [insertVectorResults]
      rw [dlookup_insertVector_notin rest p.1.id _
        (fun q hq hbad => hnodup.1 (hbad ▸ List.mem_map_of_mem (fun r => r.1.id) hq))]
      exact dlookup_combinedSet_self p.1.id _ acc
    · rw [insertVectorResults]
      exact ih _ htail hnodup.2

theorem dlookup_insertKeyword_notin (k : List (RDoc × ℚ)) (j : Int) :
    ∀ acc, (∀ p ∈ k, p.1.id ≠ j) →
      dlookup j (insertKeywordResults k acc) = dlookup j acc := by
  induction k with
  | nil => intro acc _; rfl
  | cons p rest ih =>
    intro acc hnot
    obtain ⟨doc, score⟩ := p
    have hid : doc.id ≠ j := hnot (doc, score) (by simp)
    rw [insertKeywordResults]
    rw [ih _ (fun q hq => hnot q (by simp [hq]))]
    exact dlookup_combinedMax_ne doc (round4 score) j acc (Ne.symm hid)

theorem dlookup_insertKeyword_none (k : List (RDoc × ℚ)) (doc : RDoc) (score : ℚ) :
    ∀ acc, (doc, score) ∈ k → (k.map fun p => p.1.id).Nodup →
      dlookup doc.id acc = none →
      dlookup doc.id (insertKeywordResults k acc) = some (doc, round4 score) := by
  induction k with
  | nil => intro acc h _ _; simp at h
  | cons p rest ih =>
    intro acc hmem hnodup hacc
    rw [List.map_cons, List.nodup_cons] at hnodup
    rcases List.mem_cons.mp hmem with heq | htail
    · obtain ⟨rfl, rfl⟩ : p.1 = doc ∧ p.2 = score := by
        cases heq
        exact ⟨rfl, rfl⟩
      rw [insertKeywordResults]
      rw [dlookup_insertKeyword_notin rest p.1.id _
        (fun q hq hbad => hnodup.1 (hbad ▸ List.mem_map_of_mem (fun r => r.1.id) hq))]
      exact dlookup_combinedMax_none p.1 (round4 p.2) acc hacc
    · rw [insertKeywordResults]
      exact ih _ htail hnodup.2 (by
        by_cases hpd : p.1.id = doc.id
        · exact absurd (hpd ▸ List.mem_map_of_mem (fun r => r.1.id) htail) hnodup.1
        · rw [dlookup_combinedMax_ne p.1 (round4 p.2) doc.id acc (Ne.symm hpd)]
          exact hacc)

theorem dlookup_insertKeyword_some (k : List (RDoc × ℚ)) (doc : RDoc) (score : ℚ)
    (d : RDoc) (s' : ℚ) :
    ∀ acc, (doc, score) ∈ k → (k.map fun p => p.1.id).Nodup →
      dlookup doc.id acc = some (d, s') →
      dlookup doc.id (insertKeywordResults k acc) = some (d, max s' (round4 score)) := by
  induction k with
  | nil => intro acc h _ _; simp at h
  | cons p rest ih =>
    intro acc hmem hnodup hacc
    rw [List.map_cons, List.nodup_cons] at hnodup
    rcases List.mem_cons.mp hmem with heq | htail
    · obtain ⟨rfl, rfl⟩ : p.1 = doc ∧ p.2 = score := by
        cases heq
        exact ⟨rfl, rfl⟩
      rw [insertKeywordResults]
      rw [dlookup_insertKeyword_notin rest p.1.id _
        (fun q hq hbad => hnodup.1 (hbad ▸ List.mem_map_of_mem (fun r => r.1.id) hq))]
      exact dlookup_combinedMax_some p.1 (round4 p.2) acc d s' hacc
    · rw [insertKeywordResults]
      refine ih _ htail hnodup.2 ?_
      by_cases hpd : p.1.id = doc.id
      · exact absurd (hpd ▸ List.mem_map_of_mem (fun r => r.1.id) htail) hnodup.1
      · rw [dlookup_combinedMax_ne p.1 (round4 p.2) doc.id acc (Ne.symm hpd)]
        exact hacc

theorem dlookup_mem (i : Int) (l : Combined) (v : RDoc × ℚ) (h : dlookup i l = some v) :
    (i, v) ∈ l := by
  induction l with
  | nil => simp [dlookup] at h
  | cons e rest ih =>
    obtain ⟨k, w⟩ := e
    by_cases hk : k = i
    · subst hk
      simp only [dlookup, if_pos rfl] at h
      cases h
      simp
    · simp only [dlookup, if_neg hk] at h
      exact List.mem_cons_of_mem _ (ih h)

theorem insertDesc_perm (r : SearchResultEntry) (l : List SearchResultEntry) :
    List.Perm (insertDesc r l) (r :: l) := by
  induction l with
  | nil => exact List.Perm.refl _
  | cons y ys ih =>
    rw [insertDesc]
    by_cases h : r.similarity < y.similarity
    · rw [if_pos h]
      exact (ih.cons y).trans (List.Perm.swap r y ys)
    · rw [if_neg h]

theorem sortBySimilarityDesc_perm (l : List SearchResultEntry) :
    List.Perm (sortBySimilarityDesc l) l := by
  induction l with
  | nil => exact List.Perm.refl _
  | cons x xs ih => exact (insertDesc_perm x (sortBySimilarityDesc xs)).trans (ih.cons x)

theorem insertDesc_sorted (r : SearchResultEntry) (l : List SearchResultEntry)
    (h : SortedDesc l) : SortedDesc (insertDesc r l) := by
  induction l with
  | nil => simp [insertDesc, SortedDesc]
  | cons y ys ih =>
    rw [SortedDesc, List.pairwise_cons] at h
    rw [insertDesc]
    by_cases hr : r.similarity < y.similarity
    · rw [if_pos hr]
      rw [SortedDesc, List.pairwise_cons]
      constructor
      · intro z hz
        rcases List.mem_cons.mp ((insertDesc_perm r ys).mem_iff.mp hz) with hz | hz
        · subst hz; exact le_of_lt hr
        · exact h.1 z hz
      · exact ih h.2
    · rw [if_neg hr]
      rw [SortedDesc, List.pairwise_cons]
      refine ⟨?_, List.pairwise_cons.mpr h⟩
      intro z hz
      rcases List.mem_cons.mp hz with hz | hz
      · subst hz; exact le_of_not_lt hr
      · exact le_trans (h.1 z hz) (le_of_not_lt hr)

theorem sortBySimilarityDesc_sorted (l : List SearchResultEntry) :
    SortedDesc (sortBySimilarityDesc l) := by
  induction l with
  | nil => simp [sortBySimilarityDesc, SortedDesc]
  | cons x xs ih => exact insertDesc_sorted x (sortBySimilarityDesc xs) ih

theorem mem_mergeResults_of_dlookup (v k : List (RDoc × ℚ)) (i : Int) (d : RDoc) (s : ℚ)
    (h : dlookup i (insertKeywordResults k (insertVectorResults v [])) = some (d, s)) :
    toEntry d s ∈ mergeResults v k := by
  rw [mergeResults]
  refine (sortBySimilarityDesc_perm _).mem_iff.mpr ?_
  exact List.mem_map.mpr ⟨(i, (d, s)), dlookup_mem i _ _ h, rfl⟩

/-- C4: for every pair of vector and keyword result sets (at most one row
per document id in each), the hybrid merge gives an id present in both
sets `max(vector_similarity, keyword_similarity)` with
`vector_similarity = round(1 - distance/2, 4)`, gives an id present in
only one set that single value, and returns the merged entries sorted by
similarity descending; vector hits A at distance 0.4 and B at distance
1.0 plus keyword hit A at rank 0.9 merge to `[A(0.9), B(0.5)]`. -/
theorem C4_merge_results_max_and_sorted (v k : List (RDoc × ℚ))
    (hv : (v.map fun p => p.1.id).Nodup) (hk : (k.map fun p => p.1.id).Nodup) :
    SortedDesc (mergeResults v k)
    ∧ (∀ dv dist dk s, (dv, dist) ∈ v → (dk, s) ∈ k → dk.id = dv.id →
        ∃ e ∈ mergeResults v k, e.id = dv.id ∧
          e.similarity = max (distance_to_similarity dist) (round4 s))
    ∧ (∀ dv dist, (dv, dist) ∈ v → (∀ p ∈ k, p.1.id ≠ dv.id) →
        ∃ e ∈ mergeResults v k, e.id = dv.id ∧ e.similarity = distance_to_similarity dist)
    ∧ (∀ dk s, (dk, s) ∈ k → (∀ p ∈ v, p.1.id ≠ dk.id) →
        ∃ e ∈ mergeResults v k, e.id = dk.id ∧ e.similarity = round4 s)
    ∧ mergeResults [(docA, 2/5), (docB, 1)] [(docA, 9/10)] =
        [toEntry docA (9/10), toEntry docB (1/2)] := by
  refine ⟨sortBySimilarityDesc_sorted _, ?_, ?_, ?_,
    by norm_num [mergeResults, insertVectorResults, insertKeywordResults, combinedSet,
      combinedMax, distance_to_similarity, round4, sortBySimilarityDesc, insertDesc,
      toEntry, docA, docB, max_def]⟩
  · intro dv dist dk s hvmem hkmem hid
    have h1 : dlookup dv.id (insertVectorResults v []) =
        some (dv, distance_to_similarity dist) :=
      dlookup_insertVector_mem v dv dist [] hvmem hv
    have h2 := dlookup_insertKeyword_some k dk s dv (distance_to_similarity dist)
      (insertVectorResults v []) hkmem hk (by rw [hid]; exact h1)
    refine ⟨toEntry dv (max (distance_to_similarity dist) (round4 s)), ?_, rfl, rfl⟩
    have := mem_mergeResults_of_dlookup v k dk.id dv
      (max (distance_to_similarity dist) (round4 s)) h2
    exact this
  · intro dv dist hvmem hknot
    have h1 : dlookup dv.id (insertVectorResults v []) =
        some (dv, distance_to_similarity dist) :=
      dlookup_insertVector_mem v dv dist [] hvmem hv
    have h2 : dlookup dv.id (insertKeywordResults k (insertVectorResults v [])) =
        some (dv, distance_to_similarity dist) := by
      rw [dlookup_insertKeyword_notin k dv.id _ hknot]
      exact h1
    exact ⟨toEntry dv (distance_to_similarity dist),
      mem_mergeResults_of_dlookup v k dv.id dv _ h2, rfl, rfl⟩
  · intro dk s hkmem hvnot
    have h1 : dlookup dk.id (insertVectorResults v []) = none := by
      rw [dlookup_insertVector_notin v dk.id [] hvnot]
      rfl
    have h2 := dlookup_insertKeyword_none k dk s (insertVectorResults v []) hkmem hk h1
    exact ⟨toEntry dk (round4 s),
      mem_mergeResults_of_dlookup v k dk.id dk _ h2, rfl, rfl⟩

theorem C4_witness :
    mergeResults [(docA, 2/5), (docB, 1)] [(docA, 9/10)] =
      [toEntry docA (9/10), toEntry docB (1/2)] :=
  (C4_merge_results_max_and_sorted [(docA, 2/5), (docB, 1)] [(docA, 9/10)]
    (by simp [docA, docB]) (by simp)).2.2.2.2

/-- C9: in `hybrid_search` with rerank requested and more merged
candidates than the cutoff, an unconfigured rerank provider or a failed
provider call degrades to returning the first `rerank_top_k` entries of
the merged pre-rerank order, not an error; the knowledge-base-scoped
path's rerank stage instead propagates the provider error. -/
theorem C9_hybrid_rerank_degrades_to_truncation (query collection : String)
    (v k : List (RDoc × ℚ)) (keyword_enabled : Bool) (provider : RerankCall)
    (rerank_top_k : Nat) (hq : query ≠ "") (hc : collection ≠ "")
    (hlen : (mergeResults v (if keyword_enabled then k else [])).length > rerank_top_k)
    (hrtk : 0 < rerank_top_k)
    (hp : provider = RerankCall.unconfigured ∨ provider = RerankCall.callFailed) :
    hybrid_search query collection v k keyword_enabled provider rerank_top_k true =
      (mergeResults v (if keyword_enabled then k else [])).take rerank_top_k
    ∧ ∀ (candidates : List SearchResultEntry) (e : String),
        kbScopedRerankStage candidates (.error e) = .error e := by
  constructor
  · rw [hybrid_search]
    rw [if_neg (by push_neg; exact ⟨hq, hc⟩)]
    have hne : mergeResults v (if keyword_enabled then k else []) ≠ [] := by
      intro hemp
      rw [hemp] at hlen
      simp at hlen
    rw [if_neg hne]
    rw [if_pos ⟨rfl, hlen, hrtk⟩]
    rcases hp with hp | hp <;> subst hp <;> simp [rerank, hne]
  · intro candidates e
    rfl

theorem C9_witness :
    hybrid_search "q" "c" [(docA, 2/5), (docB, 1)] [] false RerankCall.unconfigured 1 true =
      (mergeResults [(docA, 2/5), (docB, 1)] []).take 1 :=
  (C9_hybrid_rerank_degrades_to_truncation "q" "c" [(docA, 2/5), (docB, 1)] [] false
    RerankCall.unconfigured 1 (by decide) (by decide)
    (by norm_num [mergeResults, insertVectorResults, insertKeywordResults, combinedSet,
      combinedMax, distance_to_similarity, round4, sortBySimilarityDesc, insertDesc,
      toEntry, docA, docB, max_def]) (by decide) (Or.inl rfl)).1

/-! ### Store lemmas -/

theorem find?_replace_self {α : Type} (key : α → Nat) (l : List α) (i : Nat) (d d' : α)
    (hfound : l.find? (fun x => key x == i) = some d) (hid : key d' = i) :
    (l.map fun x => if key x = key d' then d' else x).find? (fun x => key x == i) =
      some d' := by
  induction l with
  | nil => simp at hfound
  | cons x xs ih =>
    by_cases hx : key x = i
    · rw [List.map_cons]
      rw [if_pos (by rw [hid, hx])]
      rw [List.find?_cons_of_pos _ (by simp [hid])]
    · rw [List.find?_cons_of_neg _ (by simp [hx])] at hfound
      rw [List.map_cons, if_neg (by rw [hid]; exact hx)]
      rw [List.find?_cons_of_neg _ (by simp [hx])]
      exact ih hfound

theorem find?_replace_ne {α : Type} (key : α → Nat) (l : List α) (j : Nat) (d' : α)
    (h : j ≠ key d') :
    (l.map fun x => if key x = key d' then d' else x).find? (fun x => key x == j) =
      l.find? (fun x => key x == j) := by
  induction l with
  | nil => rfl
  | cons x xs ih =>
    rw [List.map_cons]
    by_cases hx : key x = key d'
    · rw [if_pos hx]
      rw [List.find?_cons_of_neg _ (by simp [Ne.symm h])]
      rw [List.find?_cons_of_neg _ (by simp [hx ▸ Ne.symm h])]
      exact ih
    · rw [if_neg hx]
      by_cases hxj : key x = j
      · rw [List.find?_cons_of_pos _ (by simp [hxj]),
          List.find?_cons_of_pos _ (by simp [hxj])]
      · rw [List.find?_cons_of_neg _ (by simp [hxj]),
          List.find?_cons_of_neg _ (by simp [hxj])]
        exact ih

theorem getDocument_id (db : DB) (i : Nat) (d : DocumentRow)
    (h : db.getDocument i = some d) : d.id = i := by
  have := List.find?_some h
  simpa using this

theorem getDocument_setDocument_self (db : DB) (i : Nat) (d d' : DocumentRow)
    (h : db.getDocument i = some d) (hid : d'.id = i) :
    (db.setDocument d').getDocument i = some d' :=
  find?_replace_self (fun x : DocumentRow => x.id) db.documents i d d' h hid

theorem getDocument_setDocument_ne (db : DB) (j : Nat) (d' : DocumentRow)
    (h : j ≠ d'.id) :
    (db.setDocument d').getDocument j = db.getDocument j :=
  find?_replace_ne (fun x : DocumentRow => x.id) db.documents j d' h

theorem normalizeEmbeddings_ok (dim : Nat) (embs : List (List ℚ))
    (h : ∀ e ∈ embs, e.length = dim) :
    normalizeEmbeddings dim embs = .ok (embs.map l2_normalize) := by
  induction embs with
  | nil => rfl
  | cons e rest ih =>
    rw [normalizeEmbeddings]
    rw [if_neg (by simp [h e (by simp)])]
    rw [ih fun x hx => h x (by simp [hx])]
    rfl

theorem except_bind_ok {ε α β : Type} (a : α) (f : α → Except ε β) :
    (Except.ok a >>= f : Except ε β) = f a := rfl

theorem except_bind_error {ε α β : Type} (e : ε) (f : α → Except ε β) :
    (Except.error e >>= f : Except ε β) = Except.error e := rfl

theorem persist_embeddings_success_eq (db : DB) (document_id : Nat) (chunks : List Chunk)
    (embeddings : List (List ℚ)) (embedding_dim : Nat) (document : DocumentRow)
    (hdoc : db.getDocument document_id = some document)
    (hnd : document.status ≠ DocumentStatus.deleted)
    (hlen : embeddings.length = chunks.length)
    (hdim : ∀ e ∈ embeddings, e.length = embedding_dim) :
    persist_embeddings db document_id chunks (.ok embeddings) embedding_dim none =
      (({ db with chunks := db.chunks.filter (fun c : ChunkRow => ¬ c.document_id = document_id) ++
            newChunkRows document chunks (embeddings.map l2_normalize) }).setDocument
          { document with
            chunk_count := chunks.length
            status := DocumentStatus.completed
            error_message := none },
        .ok { document with
              chunk_count := chunks.length
              status := DocumentStatus.completed
              error_message := none }) := by
  simp [persist_embeddings, hdoc, hnd, hlen, except_bind_ok,
    normalizeEmbeddings_ok embedding_dim embeddings hdim,
    DB.deleteChunksOfDocument]

theorem persist_embeddings_txfail_eq (db : DB) (document_id : Nat) (chunks : List Chunk)
    (embeddings : List (List ℚ)) (embedding_dim : Nat) (document : DocumentRow)
    (hdoc : db.getDocument document_id = some document)
    (hnd : document.status ≠ DocumentStatus.deleted)
    (hlen : embeddings.length = chunks.length)
    (hdim : ∀ e ∈ embeddings, e.length = embedding_dim) (msg : String) :
    persist_embeddings db document_id chunks (.ok embeddings) embedding_dim (some msg) =
      (db.setDocument { document with
          status := DocumentStatus.failed
          error_message := some msg }, .internalError) := by
  simp [persist_embeddings, hdoc, hnd, hlen, except_bind_ok,
    normalizeEmbeddings_ok embedding_dim embeddings hdim]

/-- C1: for every call to `persist_embeddings` on an existing,
non-DELETED document whose embedding count and dimensions validate,
chunk replacement is one atomic unit — delete all of the document's
chunks, insert the new set, set `chunk_count = len(chunks)`, set status
COMPLETED, clear `error_message`, committed together, other documents
untouched; if any step of the unit raises, the unit has no effect and a
second, separate commit marks the document FAILED and records the
exception's message. -/
theorem C1_persist_embeddings_atomic (db : DB) (document_id : Nat) (chunks : List Chunk)
    (embeddings : List (List ℚ)) (embedding_dim : Nat) (document : DocumentRow)
    (hdoc : db.getDocument document_id = some document)
    (hnd : document.status ≠ DocumentStatus.deleted)
    (hlen : embeddings.length = chunks.length)
    (hdim : ∀ e ∈ embeddings, e.length = embedding_dim) :
    (persist_embeddings db document_id chunks (.ok embeddings) embedding_dim none =
      (({ db with chunks := db.chunks.filter (fun c : ChunkRow => ¬ c.document_id = document_id) ++
            newChunkRows document chunks (embeddings.map l2_normalize) }).setDocument
          { document with
            chunk_count := chunks.length
            status := DocumentStatus.completed
            error_message := none },
        .ok { document with
              chunk_count := chunks.length
              status := DocumentStatus.completed
              error_message := none }))
    ∧ ((persist_embeddings db document_id chunks (.ok embeddings) embedding_dim none).1.getDocument
        document_id =
        some { document with
               chunk_count := chunks.length
               status := DocumentStatus.completed
               error_message := none })
    ∧ (∀ j, j ≠ document_id →
        (persist_embeddings db document_id chunks (.ok embeddings) embedding_dim none).1.getDocument j =
          db.getDocument j)
    ∧ (∀ msg, persist_embeddings db document_id chunks (.ok embeddings) embedding_dim (some msg) =
        (db.setDocument { document with
            status := DocumentStatus.failed
            error_message := some msg },
          .internalError))
    ∧ (∀ msg,
        (persist_embeddings db document_id chunks (.ok embeddings) embedding_dim (some msg)).1.chunks
          = db.chunks) := by
  have hid : document.id = document_id := getDocument_id db document_id document hdoc
  have hsucc := persist_embeddings_success_eq db document_id chunks embeddings embedding_dim
    document hdoc hnd hlen hdim
  have hfail := persist_embeddings_txfail_eq db document_id chunks embeddings embedding_dim
    document hdoc hnd hlen hdim
  refine ⟨hsucc, ?_, ?_, hfail, ?_⟩
  · rw [hsucc]
    exact getDocument_setDocument_self _ document_id document _ hdoc (by simp [hid])
  · intro j hj
    rw [hsucc]
    exact getDocument_setDocument_ne _ j _ (by simp [hid]; omega)
  · intro msg
    rw [hfail msg]
    rfl


theorem C1_witness :
    (persist_embeddings
        { knowledge_bases := []
          documents := [{ id := 1, knowledge_base_id := 1, filename := "a.txt",
                          status := DocumentStatus.processing, error_message := none,
                          chunk_count := 0 }]
          chunks := []
          cleanup_tasks := [] }
        1 [{ chunk_index := 0, text := "hello", metadata := [] }]
        (.ok [[3, 4]]) 2 none).1.getDocument 1 =
      some { id := 1, knowledge_base_id := 1, filename := "a.txt",
             status := DocumentStatus.completed, error_message := none, chunk_count := 1 } :=
  (C1_persist_embeddings_atomic _ 1 _ [[3, 4]] 2
    { id := 1, knowledge_base_id := 1, filename := "a.txt",
      status := DocumentStatus.processing, error_message := none, chunk_count := 0 }
    (by decide) (by decide) (by decide) (by decide)).2.1

/-- C2 as stated is false: a failed ingestion attempt (dimension mismatch
on chunk 2) leaves the document's previous chunk row in place and
`chunk_count` at its previous value 1, not zero — the delete of the old
chunks happens inside the rolled-back transaction (and a validation
failure occurs before any delete), so the prior chunk set survives. -/
theorem C2_counterexample :
    ((persist_embeddings
        { knowledge_bases := []
          documents := [{ id := 1, knowledge_base_id := 1, filename := "a.txt",
                          status := DocumentStatus.completed, error_message := none,
                          chunk_count := 1 }]
          chunks := [{ knowledge_base_id := 1, document_id := 1, chunk_index := 0,
                       chunk_text := "old", metadata_json := [], embedding := [1, 0] }]
          cleanup_tasks := [] }
        1 [{ chunk_index := 0, text := "x", metadata := [] },
           { chunk_index := 1, text := "y", metadata := [] }]
        (.ok [[1, 0], [1]]) 2 none).2 = PersistResult.internalError)
    ∧ ((persist_embeddings
        { knowledge_bases := []
          documents := [{ id := 1, knowledge_base_id := 1, filename := "a.txt",
                          status := DocumentStatus.completed, error_message := none,
                          chunk_count := 1 }]
          chunks := [{ knowledge_base_id := 1, document_id := 1, chunk_index := 0,
                       chunk_text := "old", metadata_json := [], embedding := [1, 0] }]
          cleanup_tasks := [] }
        1 [{ chunk_index := 0, text := "x", metadata := [] },
           { chunk_index := 1, text := "y", metadata := [] }]
        (.ok [[1, 0], [1]]) 2 none).1.chunks.length = 1)
    ∧ (((persist_embeddings
        { knowledge_bases := []
          documents := [{ id := 1, knowledge_base_id := 1, filename := "a.txt",
                          status := DocumentStatus.completed, error_message := none,
                          chunk_count := 1 }]
          chunks := [{ knowledge_base_id := 1, document_id := 1, chunk_index := 0,
                       chunk_text := "old", metadata_json := [], embedding := [1, 0] }]
          cleanup_tasks := [] }
        1 [{ chunk_index := 0, text := "x", metadata := [] },
           { chunk_index := 1, text := "y", metadata := [] }]
        (.ok [[1, 0], [1]]) 2 none).1.getDocument 1).map
          (fun d => (d.status, d.error_message, d.chunk_count)) =
        some (DocumentStatus.failed, some "embedding dimension mismatch", 1)) := by
  refine ⟨?_, ?_, ?_⟩ <;> decide

/-- C2 (amended): for every ingestion attempt on an existing, non-DELETED
document that fails, after `persist_embeddings` finishes the document's
chunk rows and `chunk_count` are unchanged from before the attempt (the
rolled-back transaction restores — or never performed — the delete),
while its status is FAILED with `error_message` recording the failure
message; in the Scenario-B dimension-mismatch case that message is
non-empty. -/
theorem C2_failed_ingestion_keeps_prior_chunks (db : DB) (document_id : Nat)
    (chunks : List Chunk) (embedResult : Except String (List (List ℚ)))
    (embedding_dim : Nat) (txError : Option String) (document : DocumentRow)
    (db' : DB) (r : PersistResult)
    (hdoc : db.getDocument document_id = some document)
    (hnd : document.status ≠ DocumentStatus.deleted)
    (hrun : persist_embeddings db document_id chunks embedResult embedding_dim txError = (db', r))
    (hfail : r = PersistResult.internalError) :
    (db'.chunks = db.chunks
      ∧ ∃ m, db'.getDocument document_id =
          some { document with status := DocumentStatus.failed, error_message := some m })
    ∧ "embedding dimension mismatch" ≠ "" := by
  refine ⟨?_, by decide⟩
  have hid : document.id = document_id := getDocument_id db document_id document hdoc
  rw [persist_embeddings, hdoc] at hrun
  dsimp only at hrun
  rw [if_neg hnd] at hrun
  split at hrun
  case _ db2 updated heq =>
    rw [Prod.mk.injEq] at hrun
    rw [← hrun.2] at hfail
    exact absurd hfail (by simp)
  case _ msg heq =>
    rw [Prod.mk.injEq] at hrun
    rw [← hrun.1]
    refine ⟨rfl, msg, ?_⟩
    exact getDocument_setDocument_self db document_id document _ hdoc (by simp [hid])

/-- C7 as stated is false at document deletion: `delete_document` removes
all chunk rows of the document but leaves `chunk_count` at its prior
value, so a DELETED document can report `chunk_count = 1` with zero chunk
rows. -/
theorem C7_counterexample :
    ((delete_document
        { knowledge_bases := []
          documents := [{ id := 1, knowledge_base_id := 1, filename := "a.txt",
                          status := DocumentStatus.completed, error_message := none,
                          chunk_count := 1 }]
          chunks := [{ knowledge_base_id := 1, document_id := 1, chunk_index := 0,
                       chunk_text := "t", metadata_json := [], embedding := [] }]
          cleanup_tasks := [] } 1).toOption.map fun d => chunkCountOk d 1) = some false
    ∧ ((delete_document
        { knowledge_bases := []
          documents := [{ id := 1, knowledge_base_id := 1, filename := "a.txt",
                          status := DocumentStatus.completed, error_message := none,
                          chunk_count := 1 }]
          chunks := [{ knowledge_base_id := 1, document_id := 1, chunk_index := 0,
                       chunk_text := "t", metadata_json := [], embedding := [] }]
          cleanup_tasks := [] } 1).toOption.map fun d =>
        ((d.getDocument 1).map fun x => x.chunk_count, d.chunks.length)) =
      some (some 1, 0) := by
  exact ⟨by decide, by decide⟩

theorem filter_pos_of_filter_neg (l : List ChunkRow) (i : Nat) :
    ((l.filter fun c => ¬ c.document_id = i).filter fun c => c.document_id = i) = [] := by
  rw [List.filter_eq_nil_iff]
  intro c hc
  have := (List.mem_filter.mp hc).2
  simp at this
  simp [this]

theorem newChunkRows_filter_self (document : DocumentRow) (chunks : List Chunk)
    (normalized : List (List ℚ)) (i : Nat) (hid : document.id = i) :
    ((newChunkRows document chunks normalized).filter fun c => c.document_id = i) =
      newChunkRows document chunks normalized := by
  rw [List.filter_eq_self]
  intro r hr
  rcases List.mem_map.mp hr with ⟨p, _, hp⟩
  simp [← hp, hid]

theorem find?_append_left_none {α : Type} (p : α → Bool) (l₁ l₂ : List α)
    (h : ∀ x ∈ l₁, ¬ p x = true) :
    (l₁ ++ l₂).find? p = l₂.find? p := by
  rw [List.find?_append]
  have : l₁.find? p = none := by
    rw [List.find?_eq_none]
    exact h
  rw [this]
  rfl

theorem chunkCountOk_append_fresh (db : DB) (d : DocumentRow)
    (h2 : ∀ x ∈ db.documents, x.id ≠ d.id)
    (h3 : ∀ c ∈ db.chunks, c.document_id ≠ d.id)
    (hcc : d.chunk_count = 0) :
    chunkCountOk { db with documents := db.documents ++ [d] } d.id = true := by
  have hget : ({ db with documents := db.documents ++ [d] } : DB).getDocument d.id = some d := by
    show (db.documents ++ [d]).find? (fun x => x.id == d.id) = some d
    rw [find?_append_left_none _ db.documents _ (by intro x hx; simp [h2 x hx])]
    simp [List.find?]
  rw [chunkCountOk, hget]
  have hfil : (db.chunks.filter fun c => c.document_id = d.id) = [] := by
    rw [List.filter_eq_nil_iff]
    intro c hc
    simp [h3 c hc]
  show (d.chunk_count == _) = true
  rw [hfil, hcc]
  rfl

/-- C7 (amended): `chunk_count` equals the number of the document's chunk
rows after document creation (with a fresh id) and after successful
ingestion; document deletion instead removes all of the document's chunk
rows while leaving `chunk_count` unchanged (the row is DELETED), so the
equality does not survive deletion. -/
theorem C7_chunk_count_invariant
    (dbA : DB) (kb_idA : Nat) (fA : UploadFile) (max_sizeA newIdA : Nat)
    (dbA' : DB) (dA : DocumentRow)
    (hA1 : create_document dbA kb_idA fA max_sizeA newIdA = .ok (dbA', dA))
    (hA2 : ∀ x ∈ dbA.documents, x.id ≠ newIdA)
    (hA3 : ∀ c ∈ dbA.chunks, c.document_id ≠ newIdA)
    (dbB : DB) (document_idB : Nat) (chunksB : List Chunk) (embsB : List (List ℚ))
    (dimB : Nat) (documentB : DocumentRow)
    (hB1 : dbB.getDocument document_idB = some documentB)
    (hB2 : documentB.status ≠ DocumentStatus.deleted)
    (hB3 : embsB.length = chunksB.length)
    (hB4 : ∀ e ∈ embsB, e.length = dimB)
    (dbC : DB) (document_idC : Nat) (documentC : DocumentRow) (dbC' : DB)
    (hC1 : dbC.getDocument document_idC = some documentC)
    (hC2 : documentC.status ≠ DocumentStatus.deleted)
    (hC3 : delete_document dbC document_idC = .ok dbC') :
    chunkCountOk dbA' newIdA = true
    ∧ chunkCountOk
        (persist_embeddings dbB document_idB chunksB (.ok embsB) dimB none).1 document_idB = true
    ∧ ((dbC'.chunks.filter fun c => c.document_id = document_idC) = []
        ∧ dbC'.getDocument document_idC =
            some { documentC with status := DocumentStatus.deleted }) := by
  refine ⟨?_, ?_, ?_⟩
  · -- creation
    rcases hE : ensure_kb_available dbA kb_idA with e | kb
    · rw [create_document, hE] at hA1
      simp [except_bind_error] at hA1
    · rcases hV : validate_upload_file fA max_sizeA with e | u
      · rw [create_document, hE, hV] at hA1
        simp [except_bind_ok, except_bind_error] at hA1
      · rw [create_document, hE, hV] at hA1
        simp only [except_bind_ok, Except.ok.injEq, Prod.mk.injEq] at hA1
        obtain ⟨hdb, hd⟩ := hA1
        rw [← hdb]
        exact chunkCountOk_append_fresh dbA _ hA2 hA3 rfl
  · -- successful ingestion
    rw [persist_embeddings_success_eq dbB document_idB chunksB embsB dimB documentB
      hB1 hB2 hB3 hB4]
    have hidB : documentB.id = document_idB := getDocument_id dbB document_idB documentB hB1
    have hget := getDocument_setDocument_self
      ({ dbB with chunks := dbB.chunks.filter (fun c : ChunkRow => ¬ c.document_id = document_idB) ++
          newChunkRows documentB chunksB (embsB.map l2_normalize) } : DB)
      document_idB documentB
      { documentB with
        chunk_count := chunksB.length
        status := DocumentStatus.completed
        error_message := none }
      hB1 (by simp [hidB])
    rw [chunkCountOk, hget]
    have hlenN : (newChunkRows documentB chunksB (embsB.map l2_normalize)).length =
        chunksB.length := by
      rw [newChunkRows, List.length_map, List.length_zip, List.length_map, hB3]
      omega
    show (chunksB.length ==
      ((dbB.chunks.filter (fun c : ChunkRow => ¬ c.document_id = document_idB) ++
        newChunkRows documentB chunksB (embsB.map l2_normalize)).filter
          (fun c => c.document_id = document_idB)).length) = true
    rw [List.filter_append, filter_pos_of_filter_neg,
      newChunkRows_filter_self documentB chunksB _ document_idB hidB,
      List.nil_append, hlenN]
    simp
  · -- deletion
    rw [delete_document, hC1] at hC3
    dsimp only at hC3
    rw [if_neg hC2] at hC3
    simp only [Except.ok.injEq] at hC3
    have hidC : documentC.id = document_idC := getDocument_id dbC document_idC documentC hC1
    constructor
    · rw [← hC3]
      show ((dbC.setDocument { documentC with status := DocumentStatus.deleted }).chunks.filter
        (fun c => ¬ c.document_id = document_idC)).filter (fun c => c.document_id = document_idC)
          = []
      exact filter_pos_of_filter_neg _ document_idC
    · rw [← hC3]
      show ((dbC.setDocument { documentC with status := DocumentStatus.deleted }) :
        DB).getDocument document_idC = _
      exact getDocument_setDocument_self dbC document_idC documentC _ hC1 (by simp [hidC])

theorem C7_witness :
    chunkCountOk
      { knowledge_bases := [{ id := 1, name := "kb", description := none,
                              status := KnowledgeBaseStatus.enabled }]
        documents := [{ id := 1, knowledge_base_id := 1, filename := "a.txt",
                        status := DocumentStatus.processing, error_message := none,
                        chunk_count := 0 }]
        chunks := []
        cleanup_tasks := [] } 1 = true
    ∧ chunkCountOk
        (persist_embeddings
          { knowledge_bases := []
            documents := [{ id := 2, knowledge_base_id := 1, filename := "b.txt",
                            status := DocumentStatus.processing, error_message := none,
                            chunk_count := 0 }]
            chunks := []
            cleanup_tasks := [] }
          2 [{ chunk_index := 0, text := "h", metadata := [] }]
          (.ok [[3, 4]]) 2 none).1 2 = true
    ∧ ((({ knowledge_bases := []
           documents := [{ id := 1, knowledge_base_id := 1, filename := "c.txt",
                           status := DocumentStatus.deleted, error_message := none,
                           chunk_count := 1 }]
           chunks := []
           cleanup_tasks := [] } : DB).chunks.filter fun c => c.document_id = 1) = []
        ∧ ({ knowledge_bases := []
             documents := [{ id := 1, knowledge_base_id := 1, filename := "c.txt",
                             status := DocumentStatus.deleted, error_message := none,
                             chunk_count := 1 }]
             chunks := []
             cleanup_tasks := [] } : DB).getDocument 1 =
            some { id := 1, knowledge_base_id := 1, filename := "c.txt",
                   status := DocumentStatus.deleted, error_message := none,
                   chunk_count := 1 }) :=
  C7_chunk_count_invariant
    { knowledge_bases := [{ id := 1, name := "kb", description := none,
                            status := KnowledgeBaseStatus.enabled }]
      documents := []
      chunks := []
      cleanup_tasks := [] }
    1 { filename := some "a.txt", content_type := some "text/plain", size := 10 } 100 1
    { knowledge_bases := [{ id := 1, name := "kb", description := none,
                            status := KnowledgeBaseStatus.enabled }]
      documents := [{ id := 1, knowledge_base_id := 1, filename := "a.txt",
                      status := DocumentStatus.processing, error_message := none,
                      chunk_count := 0 }]
      chunks := []
      cleanup_tasks := [] }
    { id := 1, knowledge_base_id := 1, filename := "a.txt",
      status := DocumentStatus.processing, error_message := none, chunk_count := 0 }
    rfl (by decide) (by decide)
    { knowledge_bases := []
      documents := [{ id := 2, knowledge_base_id := 1, filename := "b.txt",
                      status := DocumentStatus.processing, error_message := none,
                      chunk_count := 0 }]
      chunks := []
      cleanup_tasks := [] }
    2 [{ chunk_index := 0, text := "h", metadata := [] }] [[3, 4]] 2
    { id := 2, knowledge_base_id := 1, filename := "b.txt",
      status := DocumentStatus.processing, error_message := none, chunk_count := 0 }
    (by decide) (by decide) (by decide) (by decide)
    { knowledge_bases := []
      documents := [{ id := 1, knowledge_base_id := 1, filename := "c.txt",
                      status := DocumentStatus.completed, error_message := none,
                      chunk_count := 1 }]
      chunks := [{ knowledge_base_id := 1, document_id := 1, chunk_index := 0,
                   chunk_text := "t", metadata_json := [], embedding := [] }]
      cleanup_tasks := [] }
    1 { id := 1, knowledge_base_id := 1, filename := "c.txt",
        status := DocumentStatus.completed, error_message := none, chunk_count := 1 }
    { knowledge_bases := []
      documents := [{ id := 1, knowledge_base_id := 1, filename := "c.txt",
                      status := DocumentStatus.deleted, error_message := none,
                      chunk_count := 1 }]
      chunks := []
      cleanup_tasks := [] }
    (by decide) (by decide) rfl

theorem C2_witness :
    (({ knowledge_bases := []
        documents := [{ id := 1, knowledge_base_id := 1, filename := "a.txt",
                        status := DocumentStatus.failed, error_message := some "boom",
                        chunk_count := 0 }]
        chunks := []
        cleanup_tasks := [] } : DB).chunks =
        ({ knowledge_bases := []
           documents := [{ id := 1, knowledge_base_id := 1, filename := "a.txt",
                           status := DocumentStatus.processing, error_message := none,
                           chunk_count := 0 }]
           chunks := []
           cleanup_tasks := [] } : DB).chunks
      ∧ ∃ m, ({ knowledge_bases := []
                documents := [{ id := 1, knowledge_base_id := 1, filename := "a.txt",
                                status := DocumentStatus.failed, error_message := some "boom",
                                chunk_count := 0 }]
                chunks := []
                cleanup_tasks := [] } : DB).getDocument 1 =
          some { id := 1, knowledge_base_id := 1, filename := "a.txt",
                 status := DocumentStatus.failed, error_message := some m, chunk_count := 0 })
    ∧ "embedding dimension mismatch" ≠ "" :=
  C2_failed_ingestion_keeps_prior_chunks
    { knowledge_bases := []
      documents := [{ id := 1, knowledge_base_id := 1, filename := "a.txt",
                      status := DocumentStatus.processing, error_message := none,
                      chunk_count := 0 }]
      chunks := []
      cleanup_tasks := [] }
    1 [] (.error "boom") 4 none
    { id := 1, knowledge_base_id := 1, filename := "a.txt",
      status := DocumentStatus.processing, error_message := none, chunk_count := 0 }
    { knowledge_bases := []
      documents := [{ id := 1, knowledge_base_id := 1, filename := "a.txt",
                      status := DocumentStatus.failed, error_message := some "boom",
                      chunk_count := 0 }]
      chunks := []
      cleanup_tasks := [] }
    PersistResult.internalError
    (by decide) (by decide) (by decide) rfl

theorem getKnowledgeBase_id (db : DB) (i : Nat) (kb : KnowledgeBaseRow)
    (h : db.getKnowledgeBase i = some kb) : kb.id = i := by
  have := List.find?_some h
  simpa using this

theorem getKnowledgeBase_setKnowledgeBase_self (db : DB) (i : Nat) (kb kb' : KnowledgeBaseRow)
    (h : db.getKnowledgeBase i = some kb) (hid : kb'.id = i) :
    (db.setKnowledgeBase kb').getKnowledgeBase i = some kb' :=
  find?_replace_self (fun x : KnowledgeBaseRow => x.id) db.knowledge_bases i kb kb' h hid

/-- C8 as stated is false: `delete_knowledge_base` rejects only an
already-DELETED knowledge base, so deleting a DISABLED knowledge base
succeeds and moves it to DELETED. -/
theorem C8_counterexample :
    ((delete_knowledge_base
        { knowledge_bases := [{ id := 1, name := "kb", description := none,
                                status := KnowledgeBaseStatus.disabled }]
          documents := []
          chunks := []
          cleanup_tasks := [] } 1 7).toOption.map fun p =>
      ((p.1.getKnowledgeBase 1).map fun kb => kb.status, p.2.status)) =
      some (some KnowledgeBaseStatus.deleted, CleanupTaskStatus.pending) := by
  decide

/-- C8 (amended): a KnowledgeBase reaches DELETED from any non-DELETED
status — ENABLED or DISABLED — via `delete_knowledge_base` (which also
creates the PENDING cleanup task); DELETED is terminal: on a DELETED
knowledge base every update and every delete fails with the
`KNOWLEDGE_BASE_DELETED` conflict error before any mutation, leaving the
store unchanged. -/
theorem C8_kb_deleted_terminal (db : DB) (kb_id newTaskId : Nat) (kb : KnowledgeBaseRow)
    (hkb : db.getKnowledgeBase kb_id = some kb) :
    (kb.status = KnowledgeBaseStatus.enabled ∨ kb.status = KnowledgeBaseStatus.disabled →
      ∃ db' task, delete_knowledge_base db kb_id newTaskId = .ok (db', task)
        ∧ db'.getKnowledgeBase kb_id = some { kb with status := KnowledgeBaseStatus.deleted }
        ∧ task.status = CleanupTaskStatus.pending
        ∧ task.knowledge_base_id = kb.id)
    ∧ (kb.status = KnowledgeBaseStatus.deleted →
        (∀ payload, update_knowledge_base db kb_id payload = .error SvcError.knowledgeBaseDeleted)
        ∧ delete_knowledge_base db kb_id newTaskId = .error SvcError.knowledgeBaseDeleted) := by
  have hid : kb.id = kb_id := getKnowledgeBase_id db kb_id kb hkb
  constructor
  · intro hst
    have hne : kb.status ≠ KnowledgeBaseStatus.deleted := by
      rcases hst with h | h <;> simp [h]
    rw [delete_knowledge_base, hkb]
    dsimp only
    rw [if_neg hne]
    refine ⟨_, _, rfl, ?_, rfl, rfl⟩
    show ((db.setKnowledgeBase { kb with status := KnowledgeBaseStatus.deleted }) :
      DB).knowledge_bases.find? _ = _
    exact getKnowledgeBase_setKnowledgeBase_self db kb_id kb _ hkb (by simp [hid])
  · intro hst
    constructor
    · intro payload
      rw [update_knowledge_base, hkb]
      dsimp only
      rw [if_pos hst]
    · rw [delete_knowledge_base, hkb]
      dsimp only
      rw [if_pos hst]

theorem C8_witness :
    ((KnowledgeBaseStatus.disabled = KnowledgeBaseStatus.enabled ∨
        KnowledgeBaseStatus.disabled = KnowledgeBaseStatus.disabled) →
      ∃ db' task, delete_knowledge_base
          { knowledge_bases := [{ id := 1, name := "kb", description := none,
                                  status := KnowledgeBaseStatus.disabled }]
            documents := []
            chunks := []
            cleanup_tasks := [] } 1 7 = .ok (db', task)
        ∧ db'.getKnowledgeBase 1 =
            some { id := 1, name := "kb", description := none,
                   status := KnowledgeBaseStatus.deleted }
        ∧ task.status = CleanupTaskStatus.pending
        ∧ task.knowledge_base_id = 1)
    ∧ (KnowledgeBaseStatus.disabled = KnowledgeBaseStatus.deleted →
        (∀ payload, update_knowledge_base
            { knowledge_bases := [{ id := 1, name := "kb", description := none,
                                    status := KnowledgeBaseStatus.disabled }]
              documents := []
              chunks := []
              cleanup_tasks := [] } 1 payload = .error SvcError.knowledgeBaseDeleted)
        ∧ delete_knowledge_base
            { knowledge_bases := [{ id := 1, name := "kb", description := none,
                                    status := KnowledgeBaseStatus.disabled }]
              documents := []
              chunks := []
              cleanup_tasks := [] } 1 7 = .error SvcError.knowledgeBaseDeleted) :=
  C8_kb_deleted_terminal
    { knowledge_bases := [{ id := 1, name := "kb", description := none,
                            status := KnowledgeBaseStatus.disabled }]
      documents := []
      chunks := []
      cleanup_tasks := [] }
    1 7 { id := 1, name := "kb", description := none, status := KnowledgeBaseStatus.disabled }
    (by decide)

theorem getCleanupTask_id (db : DB) (i : Nat) (t : CleanupTaskRow)
    (h : db.getCleanupTask i = some t) : t.id = i := by
  have := List.find?_some h
  simpa using this

theorem getCleanupTask_setCleanupTask_self (db : DB) (i : Nat) (t t' : CleanupTaskRow)
    (h : db.getCleanupTask i = some t) (hid : t'.id = i) :
    (db.setCleanupTask t').getCleanupTask i = some t' :=
  find?_replace_self (fun x : CleanupTaskRow => x.id) db.cleanup_tasks i t t' h hid

/-- C5 as stated is false on one point: an exception in the chunk/document
count queries — which the source runs before its `try` block — propagates
to the caller instead of marking the task FAILED. -/
theorem C5_counterexample :
    run_cleanup_task
      { knowledge_bases := []
        documents := [{ id := 1, knowledge_base_id := 1, filename := "a",
                        status := DocumentStatus.completed, error_message := none,
                        chunk_count := 0 }]
        chunks := []
        cleanup_tasks := [{ id := 1, knowledge_base_id := 1,
                            status := CleanupTaskStatus.pending,
                            progress := none, error_message := none }] }
      1 { countError := some "db connection lost" } =
      ({ knowledge_bases := []
         documents := [{ id := 1, knowledge_base_id := 1, filename := "a",
                         status := DocumentStatus.completed, error_message := none,
                         chunk_count := 0 }]
         chunks := []
         cleanup_tasks := [{ id := 1, knowledge_base_id := 1,
                             status := CleanupTaskStatus.pending,
                             progress := none, error_message := none }] },
        RunOutcome.raised "db connection lost") := by
  decide

/-- C5 (amended): executing a PENDING or FAILED cleanup task with no
store failure marks it RUNNING with cleared error_message, commits the
intermediate progress `{0, total, 0.0}` (total = chunk_count +
document_count), deletes all chunks then all documents of the knowledge
base, and returns the task COMPLETED with progress
`{processed = total, total, percentage = 1.0}` (Scenario D: 3 documents
and 10 chunks give `{13, 13, 1.0}`). Any exception from the intermediate
commit onward is caught: the pending deletes are rolled back, the task is
marked FAILED with the exception's message and committed, and the call
returns normally. An exception in the count queries — which precede the
`try` block — instead propagates to the caller with the committed state
unchanged. -/
theorem C5_cleanup_execution (db : DB) (task_id : Nat) (task : CleanupTaskRow)
    (htask : db.getCleanupTask task_id = some task)
    (hst : task.status = CleanupTaskStatus.pending ∨ task.status = CleanupTaskStatus.failed) :
    ((run_cleanup_task db task_id {}).2 =
        .ok { task with
              status := CleanupTaskStatus.completed
              error_message := none
              progress := some { processed := cleanupTotal db task.knowledge_base_id
                                 total := some (cleanupTotal db task.knowledge_base_id)
                                 percentage := some 1 } }
      ∧ (run_cleanup_task db task_id {}).1.chunks =
          db.chunks.filter (fun c => ¬ c.knowledge_base_id = task.knowledge_base_id)
      ∧ (run_cleanup_task db task_id {}).1.documents =
          db.documents.filter (fun d => ¬ d.knowledge_base_id = task.knowledge_base_id)
      ∧ (run_cleanup_task db task_id {}).1.getCleanupTask task_id =
          some { task with
                 status := CleanupTaskStatus.completed
                 error_message := none
                 progress := some { processed := cleanupTotal db task.knowledge_base_id
                                    total := some (cleanupTotal db task.knowledge_base_id)
                                    percentage := some 1 } })
    ∧ (∀ msg, run_cleanup_task db task_id { commitProgressError := some msg } =
        (db.setCleanupTask { task with
            status := CleanupTaskStatus.failed
            error_message := some msg },
          .ok { task with
                status := CleanupTaskStatus.failed
                error_message := some msg }))
    ∧ (∀ msg fault, fault = ({ deleteChunksError := some msg } : CleanupFaults)
        ∨ fault = ({ deleteDocumentsError := some msg } : CleanupFaults)
        ∨ fault = ({ finalCommitError := some msg } : CleanupFaults) →
        (run_cleanup_task db task_id fault).1.chunks = db.chunks
        ∧ (run_cleanup_task db task_id fault).1.documents = db.documents
        ∧ (run_cleanup_task db task_id fault).2 =
            .ok { task with
                  status := CleanupTaskStatus.failed
                  error_message := some msg
                  progress := some { processed := 0
                                     total := some (cleanupTotal db task.knowledge_base_id)
                                     percentage :=
                                       if cleanupTotal db task.knowledge_base_id ≠ 0 then
                                         some 0 else none } })
    ∧ (∀ msg, run_cleanup_task db task_id { countError := some msg } = (db, .raised msg)) := by
  have hid : task.id = task_id := getCleanupTask_id db task_id task htask
  have hnc : ¬ task.status = CleanupTaskStatus.completed := by
    rcases hst with h | h <;> simp [h]
  refine ⟨⟨?_, ?_, ?_, ?_⟩, ?_, ?_, ?_⟩
  · rw [run_cleanup_task, htask]
    dsimp only
    rw [if_neg hnc, if_neg (not_not_intro hst)]
    rfl
  · rw [run_cleanup_task, htask]
    dsimp only
    rw [if_neg hnc, if_neg (not_not_intro hst)]
    rfl
  · rw [run_cleanup_task, htask]
    dsimp only
    rw [if_neg hnc, if_neg (not_not_intro hst)]
    rfl
  · rw [run_cleanup_task, htask]
    dsimp only
    rw [if_neg hnc, if_neg (not_not_intro hst)]
    have h1 : ((db.setCleanupTask { task with
        status := CleanupTaskStatus.running
        error_message := none
        progress := some { processed := 0
                           total := some (cleanupTotal db task.knowledge_base_id)
                           percentage := if cleanupTotal db task.knowledge_base_id ≠ 0 then
                             some 0 else none } }) : DB).getCleanupTask task_id =
        some { task with
               status := CleanupTaskStatus.running
               error_message := none
               progress := some { processed := 0
                                  total := some (cleanupTotal db task.knowledge_base_id)
                                  percentage := if cleanupTotal db task.knowledge_base_id ≠ 0 then
                                    some 0 else none } } :=
      getCleanupTask_setCleanupTask_self db task_id task _ htask (by simp [hid])
    exact getCleanupTask_setCleanupTask_self _ task_id _ _ h1 (by simp [hid])
  · intro msg
    rw [run_cleanup_task, htask]
    dsimp only
    rw [if_neg hnc, if_neg (not_not_intro hst)]
  · intro msg fault hf
    rcases hf with hf | hf | hf <;> subst hf <;>
      (rw [run_cleanup_task, htask]
       dsimp only
       rw [if_neg hnc, if_neg (not_not_intro hst)]
       exact ⟨rfl, rfl, rfl⟩)
  · intro msg
    rw [run_cleanup_task, htask]
    dsimp only
    rw [if_neg hnc, if_neg (not_not_intro hst)]

theorem C5_witness :
    (run_cleanup_task
      { knowledge_bases := []
        documents := [{ id := 1, knowledge_base_id := 1, filename := "a",
                        status := DocumentStatus.completed, error_message := none,
                        chunk_count := 4 },
                      { id := 2, knowledge_base_id := 1, filename := "b",
                        status := DocumentStatus.completed, error_message := none,
                        chunk_count := 3 },
                      { id := 3, knowledge_base_id := 1, filename := "c",
                        status := DocumentStatus.completed, error_message := none,
                        chunk_count := 3 }]
        chunks := List.replicate 10
          { knowledge_base_id := 1, document_id := 1, chunk_index := 0,
            chunk_text := "t", metadata_json := [], embedding := [] }
        cleanup_tasks := [{ id := 1, knowledge_base_id := 1,
                            status := CleanupTaskStatus.pending,
                            progress := none, error_message := none }] }
      1 {}).2 =
      .ok { id := 1, knowledge_base_id := 1, status := CleanupTaskStatus.completed,
            progress := some { processed := 13, total := some 13, percentage := some 1 },
            error_message := none } :=
  (C5_cleanup_execution
    { knowledge_bases := []
      documents := [{ id := 1, knowledge_base_id := 1, filename := "a",
                      status := DocumentStatus.completed, error_message := none,
                      chunk_count := 4 },
                    { id := 2, knowledge_base_id := 1, filename := "b",
                      status := DocumentStatus.completed, error_message := none,
                      chunk_count := 3 },
                    { id := 3, knowledge_base_id := 1, filename := "c",
                      status := DocumentStatus.completed, error_message := none,
                      chunk_count := 3 }]
      chunks := List.replicate 10
        { knowledge_base_id := 1, document_id := 1, chunk_index := 0,
          chunk_text := "t", metadata_json := [], embedding := [] }
      cleanup_tasks := [{ id := 1, knowledge_base_id := 1,
                          status := CleanupTaskStatus.pending,
                          progress := none, error_message := none }] }
    1 { id := 1, knowledge_base_id := 1, status := CleanupTaskStatus.pending,
        progress := none, error_message := none }
    (by decide) (Or.inl rfl)).1.1

/-- C6: cleanup-task state-machine legality — `run_cleanup_task` on a
COMPLETED task returns the existing record with no state change; on a
RUNNING task (the only status outside PENDING/FAILED/COMPLETED) it fails
with the `CLEANUP_TASK_NOT_RETRYABLE` conflict; `retry_cleanup_task` on
any non-FAILED task fails with that conflict, and on a FAILED task resets
status to PENDING and clears `error_message` and `progress`. -/
theorem C6_cleanup_state_machine (db : DB) (task_id : Nat) (task : CleanupTaskRow)
    (faults : CleanupFaults)
    (htask : db.getCleanupTask task_id = some task) :
    (task.status = CleanupTaskStatus.completed →
      run_cleanup_task db task_id faults = (db, .ok task))
    ∧ (task.status = CleanupTaskStatus.running →
        run_cleanup_task db task_id faults = (db, .conflict))
    ∧ (task.status ≠ CleanupTaskStatus.failed →
        retry_cleanup_task db task_id = (db, .conflict))
    ∧ (task.status = CleanupTaskStatus.failed →
        retry_cleanup_task db task_id =
          (db.setCleanupTask { task with
              status := CleanupTaskStatus.pending
              error_message := none
              progress := some { processed := 0, total := none, percentage := none } },
            .ok { task with
                  status := CleanupTaskStatus.pending
                  error_message := none
                  progress := some { processed := 0, total := none, percentage := none } })) := by
  refine ⟨?_, ?_, ?_, ?_⟩
  · intro h
    rw [run_cleanup_task, htask]
    dsimp only
    rw [if_pos h]
  · intro h
    rw [run_cleanup_task, htask]
    dsimp only
    rw [if_neg (by simp [h]), if_pos (by simp [h])]
  · intro h
    rw [retry_cleanup_task, htask]
    dsimp only
    rw [if_pos h]
  · intro h
    rw [retry_cleanup_task, htask]
    dsimp only
    rw [if_neg (not_not_intro h)]

theorem C6_witness :
    ((CleanupTaskStatus.failed = CleanupTaskStatus.completed →
      run_cleanup_task
        { knowledge_bases := [], documents := [], chunks := []
          cleanup_tasks := [{ id := 1, knowledge_base_id := 1,
                              status := CleanupTaskStatus.failed,
                              progress := some { processed := 0, total := some 2,
                                                 percentage := none },
                              error_message := some "boom" }] } 1 {} =
        ({ knowledge_bases := [], documents := [], chunks := []
           cleanup_tasks := [{ id := 1, knowledge_base_id := 1,
                               status := CleanupTaskStatus.failed,
                               progress := some { processed := 0, total := some 2,
                                                  percentage := none },
                               error_message := some "boom" }] },
          .ok { id := 1, knowledge_base_id := 1, status := CleanupTaskStatus.failed,
                progress := some { processed := 0, total := some 2, percentage := none },
                error_message := some "boom" }))
    ∧ (CleanupTaskStatus.failed = CleanupTaskStatus.running →
        run_cleanup_task
          { knowledge_bases := [], documents := [], chunks := []
            cleanup_tasks := [{ id := 1, knowledge_base_id := 1,
                                status := CleanupTaskStatus.failed,
                                progress := some { processed := 0, total := some 2,
                                                   percentage := none },
                                error_message := some "boom" }] } 1 {} =
          ({ knowledge_bases := [], documents := [], chunks := []
             cleanup_tasks := [{ id := 1, knowledge_base_id := 1,
                                 status := CleanupTaskStatus.failed,
                                 progress := some { processed := 0, total := some 2,
                                                    percentage := none },
                                 error_message := some "boom" }] }, .conflict))
    ∧ (CleanupTaskStatus.failed ≠ CleanupTaskStatus.failed →
        retry_cleanup_task
          { knowledge_bases := [], documents := [], chunks := []
            cleanup_tasks := [{ id := 1, knowledge_base_id := 1,
                                status := CleanupTaskStatus.failed,
                                progress := some { processed := 0, total := some 2,
                                                   percentage := none },
                                error_message := some "boom" }] } 1 =
          ({ knowledge_bases := [], documents := [], chunks := []
             cleanup_tasks := [{ id := 1, knowledge_base_id := 1,
                                 status := CleanupTaskStatus.failed,
                                 progress := some { processed := 0, total := some 2,
                                                    percentage := none },
                                 error_message := some "boom" }] }, .conflict))
    ∧ (CleanupTaskStatus.failed = CleanupTaskStatus.failed →
        retry_cleanup_task
          { knowledge_bases := [], documents := [], chunks := []
            cleanup_tasks := [{ id := 1, knowledge_base_id := 1,
                                status := CleanupTaskStatus.failed,
                                progress := some { processed := 0, total := some 2,
                                                   percentage := none },
                                error_message := some "boom" }] } 1 =
          ({ knowledge_bases := [], documents := [], chunks := []
             cleanup_tasks := [{ id := 1, knowledge_base_id := 1,
                                 status := CleanupTaskStatus.pending,
                                 progress := some { processed := 0, total := none,
                                                    percentage := none },
                                 error_message := none }] },
            .ok { id := 1, knowledge_base_id := 1, status := CleanupTaskStatus.pending,
                  progress := some { processed := 0, total := none, percentage := none },
                  error_message := none }))) :=
  C6_cleanup_state_machine
    { knowledge_bases := [], documents := [], chunks := []
      cleanup_tasks := [{ id := 1, knowledge_base_id := 1,
                          status := CleanupTaskStatus.failed,
                          progress := some { processed := 0, total := some 2,
                                             percentage := none },
                          error_message := some "boom" }] }
    1 { id := 1, knowledge_base_id := 1, status := CleanupTaskStatus.failed,
        progress := some { processed := 0, total := some 2, percentage := none },
        error_message := some "boom" }
    {} (by decide)

end RagService
